import Mathlib

/-!
Shallow embedding of the DeltaStream python SDK's serialization layer
(`src/deltastream_sdk/models/base.py`, `models/stores.py`,
`resources/stores.py`): the `WITH (...)` clause builder, the store
parameter objects, record materialization and datetime parsing, together
with proofs about them.

Python dictionaries are embedded as association lists in insertion order
(python dicts preserve insertion order and hold unique keys); python
runtime values relevant to this layer are embedded as `PyVal`.
-/

namespace DeltaStreamSDK

/-- The single-quote character, written by code point so generated SQL text
stays readable. -/
def squote : Char := Char.ofNat 39

/-- The double-quote character. -/
def dquote : Char := Char.ofNat 34

/-- A naive-or-aware `datetime.datetime` value: civil fields plus an
optional UTC offset in seconds (`None` for a naive datetime). -/
structure PyDateTime where
  year : Int
  month : Nat
  day : Nat
  hour : Nat
  minute : Nat
  second : Nat
  microsecond : Nat
  tzOffsetSeconds : Option Int
deriving DecidableEq, Repr

/-- The python runtime values this layer passes around: `None`, `str`,
`int`, `bool` and `datetime` instances. -/
inductive PyVal where
  | none
  | str (s : String)
  | int (n : Int)
  | bool (b : Bool)
  | dt (d : PyDateTime)
deriving DecidableEq, Repr

/-- Left-pad a natural number with zeros to the given width
(python `%02d` / `%04d` style formatting). -/
def padNat (width : Nat) (n : Nat) : String :=
  let s := toString n
  if s.length < width then String.mk (List.replicate (width - s.length) (Char.ofNat 48)) ++ s
  else s

/-- `str(datetime)`: ISO form with a space separator, fractional part only
when the microsecond field is nonzero, offset only for aware values. -/
def pyStrDateTime (d : PyDateTime) : String :=
  let datePart := padNat 4 d.year.toNat ++ "-" ++ padNat 2 d.month ++ "-" ++ padNat 2 d.day
  let timePart := padNat 2 d.hour ++ ":" ++ padNat 2 d.minute ++ ":" ++ padNat 2 d.second
  let frac := if d.microsecond = 0 then "" else "." ++ padNat 6 d.microsecond
  let tz := match d.tzOffsetSeconds with
    | Option.none => ""
    | Option.some off =>
      let sign := if off < 0 then "-" else "+"
      let a := off.natAbs
      sign ++ padNat 2 (a / 3600) ++ ":" ++ padNat 2 ((a % 3600) / 60)
  datePart ++ " " ++ timePart ++ frac ++ tz

/-- Python `str(value)`: `str(None) = "None"`, `str(True) = "True"`,
`str(False) = "False"`, decimal rendering for `int`. -/
def pyStr : PyVal → String
  | PyVal.none => "None"
  | PyVal.str s => s
  | PyVal.int n => toString n
  | PyVal.bool b => if b then "True" else "False"
  | PyVal.dt d => pyStrDateTime d

/-- Python truthiness of the embedded values: `None`, `0`, `False` and the
empty string are falsy; a `datetime` instance is always truthy. -/
def pyTruthy : PyVal → Bool
  | PyVal.none => false
  | PyVal.str s => !s.isEmpty
  | PyVal.int n => n != 0
  | PyVal.bool b => b
  | PyVal.dt _ => true

deriving instance DecidableEq for Except

/-! ## Association-list embedding of python `dict` -/

/-- Python `d[k] = v`: overwrite in place when the key exists (keeping its
position), append otherwise. -/
def dictInsert {α : Type} (d : List (String × α)) (k : String) (v : α) :
    List (String × α) :=
  if d.any (fun p => p.1 = k) then
    d.map (fun p => if p.1 = k then (p.1, v) else p)
  else d ++ [(k, v)]

/-- Python `d.update(extra)`: insert the entries of `extra` left to right. -/
def dictUpdate {α : Type} (d extra : List (String × α)) : List (String × α) :=
  extra.foldl (fun acc p => dictInsert acc p.1 p.2) d

/-- Python `d.get(k)`: the value at the first entry whose key is `k`. -/
def dictGet {α : Type} (d : List (String × α)) (k : String) : Option α :=
  (d.find? (fun p => p.1 = k)).map (fun p => p.2)

/-- Python `k in d`. -/
def dictHasKey {α : Type} (d : List (String × α)) (k : String) : Bool :=
  d.any (fun p => p.1 = k)

/-! ## `WithClause` (`models/base.py`, lines 98–147) -/

/-- `escape_value`'s replacement step: python
`str_value.replace("'", "''")`, i.e. each single quote becomes two. -/
def escapeQuoteChars : List Char → List Char
  | [] => []
  | c :: rest =>
    if c = squote then squote :: squote :: escapeQuoteChars rest
    else c :: escapeQuoteChars rest

/-- `WithClause.to_sql.escape_value`: convert the value to a string, then
double every single quote. -/
def escape_value (v : PyVal) : String :=
  String.mk (escapeQuoteChars (pyStr v).data)

/-- The fixed `unquoted_param_names` set of `should_quote_value`
(`models/base.py`, lines 124–129). -/
def unquoted_param_names : List String :=
  ["type", "kafka.sasl.hash_function", "tls.disabled", "tls.verify_server_hostname"]

/-- `WithClause.to_sql.should_quote_value`: keys outside the fixed set get
quoted values. The `value` argument is accepted and ignored, as in the
source. -/
def should_quote_value (key : String) (value : String) : Bool :=
  !(unquoted_param_names.contains key)

/-- One `'<key>' = ...` fragment of the loop body of `WithClause.to_sql`
(`models/base.py`, lines 135–140). -/
def withFragment (key : String) (v : PyVal) : String :=
  if should_quote_value key (pyStr v) then
    String.singleton squote ++ key ++ String.singleton squote ++ " = " ++
      String.singleton squote ++ escape_value v ++ String.singleton squote
  else
    String.singleton squote ++ key ++ String.singleton squote ++ " = " ++ pyStr v

/-- The `params` list accumulated by the loop of `WithClause.to_sql`: one
fragment per entry of the mapping, in iteration order. -/
def withClauseFragments (parameters : List (String × PyVal)) : List String :=
  parameters.map (fun p => withFragment p.1 p.2)

/-- `WithClause.to_sql` (`models/base.py`, lines 104–142): empty string for
an empty mapping, otherwise the fragments joined with `", "` inside
`WITH (...)`. -/
def WithClause.to_sql (parameters : List (String × PyVal)) : String :=
  if parameters.isEmpty then ""
  else "WITH (" ++ String.intercalate ", " (withClauseFragments parameters) ++ ")"

/-! ## The round-trip inverse of the value escaping (claim-side) -/

/-- The inverse reading of the escaping described by the spec: drop the
first and last character of the emitted literal (its outer quotes). -/
def stripOuterQuotes (l : List Char) : List Char :=
  (l.drop 1).dropLast

/-- The inverse reading of the escaping described by the spec: undouble
every doubled single quote, scanning left to right. -/
def undoubleQuotes : List Char → List Char
  | [] => []
  | [c] => [c]
  | c :: c2 :: rest =>
    if c = squote ∧ c2 = squote then squote :: undoubleQuotes rest
    else c :: undoubleQuotes (c2 :: rest)

/-! ## `BaseModel._parse_datetime` (`models/base.py`, lines 52–86)

The source calls CPython's `datetime.strptime` on six fixed format strings.
The parsers below model `_strptime` for exactly those formats: each `%`
directive is matched by the alternation its `TimeRE` pattern lists
(longest alternative first), literal letters match case-insensitively
(`_strptime` compiles with `IGNORECASE`; the `Z` inside `%z` is the one
case-sensitive group), a literal blank in the format matches a run of
whitespace, the whole input must be consumed, and the resulting civil date
is validated (including day-of-month against leap years) as `datetime`'s
constructor does. Digits are modelled as ASCII digits. -/

/-- One ASCII digit. -/
def pDigit : List Char → Option (Nat × List Char)
  | c :: rest => if c.isDigit then Option.some (c.toNat - 48, rest) else Option.none
  | [] => Option.none

/-- `%Y`: exactly four digits. -/
def pYear4 (l : List Char) : Option (Nat × List Char) := do
  let (a, l) ← pDigit l
  let (b, l) ← pDigit l
  let (c, l) ← pDigit l
  let (d, l) ← pDigit l
  Option.some (((a * 10 + b) * 10 + c) * 10 + d, l)

/-- A two-digit pair, when present. -/
def p2Digits (l : List Char) : Option (Nat × List Char) :=
  match l with
  | c1 :: c2 :: rest =>
    if c1.isDigit && c2.isDigit then
      Option.some ((c1.toNat - 48) * 10 + (c2.toNat - 48), rest)
    else Option.none
  | _ => Option.none

/-- `%m` (`1[0-2]|0[1-9]|[1-9]`): two digits valued 1–12, else one digit 1–9. -/
def pMonth (l : List Char) : Option (Nat × List Char) :=
  match p2Digits l with
  | Option.some (v, rest) =>
    if 1 ≤ v && v ≤ 12 then Option.some (v, rest)
    else match pDigit l with
      | Option.some (d, rest) => if 1 ≤ d then Option.some (d, rest) else Option.none
      | Option.none => Option.none
  | Option.none =>
    match pDigit l with
    | Option.some (d, rest) => if 1 ≤ d then Option.some (d, rest) else Option.none
    | Option.none => Option.none

/-- `%d` (`3[01]|[12]\d|0[1-9]|[1-9]`): two digits valued 1–31, else one
digit 1–9. -/
def pDay (l : List Char) : Option (Nat × List Char) :=
  match p2Digits l with
  | Option.some (v, rest) =>
    if 1 ≤ v && v ≤ 31 then Option.some (v, rest)
    else match pDigit l with
      | Option.some (d, rest) => if 1 ≤ d then Option.some (d, rest) else Option.none
      | Option.none => Option.none
  | Option.none =>
    match pDigit l with
    | Option.some (d, rest) => if 1 ≤ d then Option.some (d, rest) else Option.none
    | Option.none => Option.none

/-- `%H` (`2[0-3]|[0-1]\d|\d`): two digits valued 0–23, else one digit. -/
def pHour (l : List Char) : Option (Nat × List Char) :=
  match p2Digits l with
  | Option.some (v, rest) =>
    if v ≤ 23 then Option.some (v, rest) else pDigit l
  | Option.none => pDigit l

/-- `%M` / `%S` (`[0-5]\d|\d`): two digits valued 0–59, else one digit. -/
def pMinSec (l : List Char) : Option (Nat × List Char) :=
  match p2Digits l with
  | Option.some (v, rest) =>
    if v ≤ 59 then Option.some (v, rest) else pDigit l
  | Option.none => pDigit l

/-- Greedily take up to `bound` leading digits. -/
def pDigitsUpTo (bound : Nat) (l : List Char) (acc : Nat) (len : Nat) :
    Nat × Nat × List Char :=
  match bound, l with
  | Nat.succ b, c :: rest =>
    if c.isDigit then pDigitsUpTo b rest (acc * 10 + (c.toNat - 48)) (len + 1)
    else (acc, len, c :: rest)
  | _, _ => (acc, len, l)

/-- `%f` (`\d{1,6}`): one to six digits, right-padded to microseconds
(`_strptime` appends zeros to six places). -/
def pFrac (l : List Char) : Option (Nat × List Char) :=
  match pDigitsUpTo 6 l 0 0 with
  | (_, 0, _) => Option.none
  | (v, len, rest) => Option.some (v * 10 ^ (6 - len), rest)

/-- Python `\s` on ASCII input. -/
def isPyWS (c : Char) : Bool :=
  c = ' ' || c = '\t' || c = '\n' || c = '\r' || c = '\x0b' || c = '\x0c'

/-- A literal blank in the format string: `_strptime` compiles it to
`\s+`. -/
def pWS : List Char → Option (List Char)
  | c :: rest =>
    if isPyWS c then Option.some (rest.dropWhile isPyWS) else Option.none
  | [] => Option.none

/-- A literal non-letter character of the format string. -/
def pLit (c : Char) : List Char → Option (List Char)
  | x :: rest => if x = c then Option.some rest else Option.none
  | [] => Option.none

/-- A literal letter of the format string, matched case-insensitively
(`_strptime` compiles the whole regex with `IGNORECASE`). -/
def pLitCI (c : Char) : List Char → Option (List Char)
  | x :: rest => if x.toLower = c.toLower then Option.some rest else Option.none
  | [] => Option.none

/-- The optional seconds tail of `%z` (`(:?[0-5]\d(\.\d{1,6})?)?`); a
fractional offset is accepted and dropped (the embedding keeps offsets in
whole seconds). -/
def pTZSeconds (l : List Char) : Nat × List Char :=
  let core := fun (l2 : List Char) =>
    match p2Digits l2 with
    | Option.some (v, rest) =>
      if v ≤ 59 then
        match rest with
        | c :: rest2 =>
          if c = '.' then
            match pFrac rest2 with
            | Option.some (_, rest3) => Option.some (v, rest3)
            | Option.none => Option.some (v, c :: rest2)
          else Option.some (v, c :: rest2)
        | [] => Option.some (v, [])
      else Option.none
    | Option.none => Option.none
  match l with
  | c :: rest =>
    if c = ':' then
      match core rest with
      | Option.some (v, rest2) => (v, rest2)
      | Option.none => (0, c :: rest)
    else
      match core (c :: rest) with
      | Option.some (v, rest2) => (v, rest2)
      | Option.none => (0, c :: rest)
  | [] => (0, [])

/-- `%z` (`[+-]\d\d:?[0-5]\d(:?[0-5]\d(\.\d{1,6})?)?|Z`, the `Z`
case-sensitive): a UTC offset in seconds, strictly below 24 hours
(`datetime.timezone` rejects anything larger). -/
def pTZ : List Char → Option (Int × List Char)
  | c :: rest =>
    if c = 'Z' then Option.some (0, rest)
    else if c = '+' || c = '-' then
      match p2Digits rest with
      | Option.some (hh, rest2) =>
        let rest3 := match rest2 with
          | x :: r => if x = ':' then r else x :: r
          | [] => []
        match p2Digits rest3 with
        | Option.some (mm, rest4) =>
          if mm ≤ 59 then
            let (ss, rest5) := pTZSeconds rest4
            let off : Int := (hh * 3600 + mm * 60 + ss : Nat)
            if off < 86400 then
              Option.some (if c = '-' then -off else off, rest5)
            else Option.none
          else Option.none
        | Option.none => Option.none
      | Option.none => Option.none
    else Option.none
  | [] => Option.none

/-- `%Y-%m-%d`. -/
def pDate (l : List Char) : Option ((Nat × Nat × Nat) × List Char) := do
  let (y, l) ← pYear4 l
  let l ← pLit '-' l
  let (mo, l) ← pMonth l
  let l ← pLit '-' l
  let (d, l) ← pDay l
  Option.some ((y, mo, d), l)

/-- `%H:%M:%S`. -/
def pTime (l : List Char) : Option ((Nat × Nat × Nat) × List Char) := do
  let (h, l) ← pHour l
  let l ← pLit ':' l
  let (mi, l) ← pMinSec l
  let l ← pLit ':' l
  let (s, l) ← pMinSec l
  Option.some ((h, mi, s), l)

/-- Gregorian leap year, as `datetime.date` uses. -/
def isLeapYear (y : Nat) : Bool :=
  y % 4 = 0 && (y % 100 ≠ 0 || y % 400 = 0)

/-- Days in a month, as `datetime.date` validates. -/
def daysInMonth (y m : Nat) : Nat :=
  if m = 2 then (if isLeapYear y then 29 else 28)
  else if m = 4 || m = 6 || m = 9 || m = 11 then 30
  else 31

/-- The `datetime` constructor's validation at the end of `strptime`:
year 1–9999 (a four-digit year only rules out 0) and day within the
month. -/
def mkDateTime (y mo d h mi s micro : Nat) (tz : Option Int) :
    Option PyDateTime :=
  if 1 ≤ y && d ≤ daysInMonth y mo then
    Option.some ⟨(y : Int), mo, d, h, mi, s, micro, tz⟩
  else Option.none

/-- `datetime.strptime(value, "%Y-%m-%d %H:%M:%S.%f %z")`. -/
def strptime_Ymd_HMS_f_z (s : String) : Option PyDateTime := do
  let (dt, l) ← pDate s.data
  let l ← pWS l
  let (tm, l) ← pTime l
  let l ← pLit '.' l
  let (micro, l) ← pFrac l
  let l ← pWS l
  let (off, l) ← pTZ l
  match l with
  | [] => mkDateTime dt.1 dt.2.1 dt.2.2 tm.1 tm.2.1 tm.2.2 micro (Option.some off)
  | _ => Option.none

/-- `datetime.strptime(value, "%Y-%m-%d %H:%M:%S %z")`. -/
def strptime_Ymd_HMS_z (s : String) : Option PyDateTime := do
  let (dt, l) ← pDate s.data
  let l ← pWS l
  let (tm, l) ← pTime l
  let l ← pWS l
  let (off, l) ← pTZ l
  match l with
  | [] => mkDateTime dt.1 dt.2.1 dt.2.2 tm.1 tm.2.1 tm.2.2 0 (Option.some off)
  | _ => Option.none

/-- `datetime.strptime(value, "%Y-%m-%d %H:%M:%S.%f")`. -/
def strptime_Ymd_HMS_f (s : String) : Option PyDateTime := do
  let (dt, l) ← pDate s.data
  let l ← pWS l
  let (tm, l) ← pTime l
  let l ← pLit '.' l
  let (micro, l) ← pFrac l
  match l with
  | [] => mkDateTime dt.1 dt.2.1 dt.2.2 tm.1 tm.2.1 tm.2.2 micro Option.none
  | _ => Option.none

/-- `datetime.strptime(value, "%Y-%m-%d %H:%M:%S")`. -/
def strptime_Ymd_HMS (s : String) : Option PyDateTime := do
  let (dt, l) ← pDate s.data
  let l ← pWS l
  let (tm, l) ← pTime l
  match l with
  | [] => mkDateTime dt.1 dt.2.1 dt.2.2 tm.1 tm.2.1 tm.2.2 0 Option.none
  | _ => Option.none

/-- `datetime.strptime(value, "%Y-%m-%dT%H:%M:%S.%fZ")`: the `T` and `Z`
are literals (matched case-insensitively), so the result is naive. -/
def strptime_YmdT_HMS_f_Z (s : String) : Option PyDateTime := do
  let (dt, l) ← pDate s.data
  let l ← pLitCI 'T' l
  let (tm, l) ← pTime l
  let l ← pLit '.' l
  let (micro, l) ← pFrac l
  let l ← pLitCI 'Z' l
  match l with
  | [] => mkDateTime dt.1 dt.2.1 dt.2.2 tm.1 tm.2.1 tm.2.2 micro Option.none
  | _ => Option.none

/-- `datetime.strptime(value, "%Y-%m-%dT%H:%M:%SZ")`: naive result. -/
def strptime_YmdT_HMS_Z (s : String) : Option PyDateTime := do
  let (dt, l) ← pDate s.data
  let l ← pLitCI 'T' l
  let (tm, l) ← pTime l
  let l ← pLitCI 'Z' l
  match l with
  | [] => mkDateTime dt.1 dt.2.1 dt.2.2 tm.1 tm.2.1 tm.2.2 0 Option.none
  | _ => Option.none

/-- The fixed format list of `_parse_datetime` (`models/base.py`,
lines 71–78), in source order: space-separated with fractional seconds and
offset, with offset, with fractional seconds, plain; `T`-separated with
fractional seconds and `Z`, and with `Z`. -/
def datetimeFormats : List (String → Option PyDateTime) :=
  [strptime_Ymd_HMS_f_z, strptime_Ymd_HMS_z, strptime_Ymd_HMS_f,
   strptime_Ymd_HMS, strptime_YmdT_HMS_f_Z, strptime_YmdT_HMS_Z]

/-- The `for fmt in [...]` loop of `_parse_datetime`: first format that
parses wins; a `ValueError` just moves to the next format. -/
def tryDatetimeFormats (s : String) : Option PyDateTime :=
  datetimeFormats.findSome? (fun f => f s)

/-- Civil date from days since the Unix epoch (proleptic Gregorian). -/
def daysToCivil (z0 : Int) : Int × Nat × Nat :=
  let z := z0 + 719468
  let era := z.fdiv 146097
  let doe := (z.fmod 146097).toNat
  let yoe := (doe - doe / 1460 + doe / 36524 - doe / 146096) / 365
  let y : Int := (yoe : Int) + era * 400
  let doy := doe - (365 * yoe + yoe / 4 - yoe / 100)
  let mp := (5 * doy + 2) / 153
  let d := doy - (153 * mp + 2) / 5 + 1
  let m := if mp < 10 then mp + 3 else mp - 9
  (if m ≤ 2 then y + 1 else y, m, d)

/-- The exception classes `datetime.fromtimestamp` raises on failure:
`valueError` stands for `ValueError` or `OSError` (out-of-range civil
result, or the C `localtime` failing) — both caught by
`_parse_datetime`'s `except (ValueError, OSError)`; `overflowError`
stands for `OverflowError` (the timestamp does not fit the platform's
signed 64-bit `time_t`), which that clause does **not** catch, so it
propagates to `_parse_datetime`'s caller. -/
inductive EpochError where
  | valueError
  | overflowError
deriving DecidableEq, Repr

/-- `datetime.fromtimestamp(n)` with the process-local timezone modelled
as UTC. A timestamp outside the signed 64-bit `time_t` range raises
`OverflowError` ("timestamp out of range for platform time_t"). Within
range, the civil result must be a valid year-1–9999 date, and so must the
fold-disambiguation probe the implementation takes at `t - 86400` for
naive results (which is why the very first representable day,
0001-01-01, already fails); outside that, `ValueError`/`OSError` — caught
upstream. -/
def fromtimestamp (n : Int) : Except EpochError PyDateTime :=
  if n < -(2 ^ 63) || 2 ^ 63 ≤ n then Except.error EpochError.overflowError
  else
    let days := n.fdiv 86400
    let sod := (n.fmod 86400).toNat
    let c := daysToCivil days
    let probe := daysToCivil ((n - 86400).fdiv 86400)
    if (1 ≤ c.1 && c.1 ≤ 9999) && (1 ≤ probe.1 && probe.1 ≤ 9999) then
      Except.ok ⟨c.1, c.2.1, c.2.2, sod / 3600, (sod % 3600) / 60, sod % 60, 0,
        Option.none⟩
    else Except.error EpochError.valueError

/-- `BaseModel._parse_datetime` (`models/base.py`, lines 52–86): falsy
values (`None`, `0`, `False`, `""`) short-circuit to `None`; a `datetime`
passes through; an `int` (python `bool` is a subclass of `int`, so a
truthy `True` counts as `1`) goes through the epoch conversion, whose
`ValueError`/`OSError` is caught (`pass`, falling through to `None`) but
whose `OverflowError` is **not** caught and propagates, embedded as
`Except.error`; a string tries the six formats in order inside a
catch-all `except Exception`, so the string path never raises; everything
else yields `None`. -/
def _parse_datetime (v : PyVal) : Except String (Option PyDateTime) :=
  if !(pyTruthy v) then Except.ok Option.none
  else match v with
    | PyVal.dt d => Except.ok (Option.some d)
    | PyVal.int n =>
      match fromtimestamp n with
      | Except.ok d => Except.ok (Option.some d)
      | Except.error EpochError.valueError => Except.ok Option.none
      | Except.error EpochError.overflowError =>
        Except.error "OverflowError: timestamp out of range for platform time_t"
    | PyVal.bool _ =>
      match fromtimestamp 1 with
      | Except.ok d => Except.ok (Option.some d)
      | Except.error EpochError.valueError => Except.ok Option.none
      | Except.error EpochError.overflowError =>
        Except.error "OverflowError: timestamp out of range for platform time_t"
    | PyVal.str s => Except.ok (tryDatetimeFormats s)
    | PyVal.none => Except.ok Option.none

/-! ## `BaseModel.from_dict` / `Store.from_dict`

`from_dict` is a classmethod: `cls` is the class it is invoked on, so the
`cls.__dataclass_fields__` filter and the final `cls(**filtered_data)`
constructor use that class's fields. `Store.from_dict` calls
`super().from_dict(data)` with `cls = Store`, so the base mapping pass is
embedded once per record type. A missing required `name` keyword makes
`cls(**filtered_data)` raise `TypeError`, embedded as `Except.error`. -/

/-- An `Optional[datetime]` stored back into a dict value. -/
def optDtToVal : Option PyDateTime → PyVal
  | Option.some d => PyVal.dt d
  | Option.none => PyVal.none

/-- Python `str.lower()` (ASCII data): lower-case every character. -/
def pyLower (s : String) : String := String.mk (s.data.map Char.toLower)

/-- The synonym tuple `("name", "relation_name", "object_name")` of
`BaseModel.from_dict`. -/
def nameSynonyms : List String := ["name", "relation_name", "object_name"]

/-- The synonym tuple `("created_on", "created_at")`. -/
def createdSynonyms : List String := ["created_on", "created_at"]

/-- The synonym tuple `("updated_on", "updated_at", "modified_at")`. -/
def updatedSynonyms : List String := ["updated_on", "updated_at", "modified_at"]

/-- One iteration of the field-mapping loop of `BaseModel.from_dict`
(`models/base.py`, lines 26–40): synonym sets map to the base attribute
names, datetime fields go through `_parse_datetime` — whose uncaught
`OverflowError` aborts the whole loop, hence the `Except` result —
everything else is kept under its lowercased name. -/
def mapBaseField (acc : List (String × PyVal)) (field_name : String)
    (value : PyVal) : Except String (List (String × PyVal)) :=
  let l := pyLower field_name
  if nameSynonyms.contains l then
    Except.ok (dictInsert acc "name" value)
  else if createdSynonyms.contains l then
    match _parse_datetime value with
    | Except.ok r => Except.ok (dictInsert acc "created_at" (optDtToVal r))
    | Except.error e => Except.error e
  else if updatedSynonyms.contains l then
    match _parse_datetime value with
    | Except.ok r => Except.ok (dictInsert acc "updated_at" (optDtToVal r))
    | Except.error e => Except.error e
  else if l = "owner" then Except.ok (dictInsert acc "owner" value)
  else if l = "comment" then Except.ok (dictInsert acc "comment" value)
  else Except.ok (dictInsert acc l value)

/-- `BaseModel`'s dataclass fields, in declaration order. -/
def baseFieldNames : List String :=
  ["name", "created_at", "updated_at", "owner", "comment"]

/-- A `BaseModel` record; python does not enforce field types, so every
field holds a runtime value, defaulting to `None`. -/
structure BaseModelRec where
  name : PyVal
  created_at : PyVal := PyVal.none
  updated_at : PyVal := PyVal.none
  owner : PyVal := PyVal.none
  comment : PyVal := PyVal.none
deriving DecidableEq, Repr

/-- `BaseModel.from_dict` invoked with `cls = BaseModel`
(`models/base.py`, lines 20–46): map the fields (an uncaught
`OverflowError` from a datetime value propagates), filter to the
dataclass fields, construct; a missing `name` raises `TypeError`. -/
def BaseModel.from_dict (data : List (String × PyVal)) :
    Except String BaseModelRec :=
  match data.foldlM (fun acc kv => mapBaseField acc kv.1 kv.2) [] with
  | Except.error e => Except.error e
  | Except.ok mapped_data =>
    let filtered_data := mapped_data.filter
      (fun kv => baseFieldNames.contains kv.1)
    match dictGet filtered_data "name" with
    | Option.some nv =>
      Except.ok
        { name := nv,
          created_at := (dictGet filtered_data "created_at").getD PyVal.none,
          updated_at := (dictGet filtered_data "updated_at").getD PyVal.none,
          owner := (dictGet filtered_data "owner").getD PyVal.none,
          comment := (dictGet filtered_data "comment").getD PyVal.none }
    | Option.none =>
      Except.error "TypeError: __init__ missing required argument name"

/-- A `Store` record (`models/stores.py`, lines 10–25): the base fields
plus the store-specific ones, all defaulting to `None`. -/
structure StoreRec where
  name : PyVal
  created_at : PyVal := PyVal.none
  updated_at : PyVal := PyVal.none
  owner : PyVal := PyVal.none
  comment : PyVal := PyVal.none
  store_type : PyVal := PyVal.none
  status : PyVal := PyVal.none
  is_default : PyVal := PyVal.none
  region : PyVal := PyVal.none
  endpoint : PyVal := PyVal.none
  database_name : PyVal := PyVal.none
  schema_name : PyVal := PyVal.none
deriving DecidableEq, Repr

/-- `Store`'s dataclass fields, in declaration order. -/
def storeFieldNames : List String :=
  ["name", "created_at", "updated_at", "owner", "comment", "store_type",
   "status", "is_default", "region", "endpoint", "database_name", "schema_name"]

/-- `asdict` of a `Store` instance: its fields in declaration order. -/
def StoreRec.to_dict (m : StoreRec) : List (String × PyVal) :=
  [("name", m.name), ("created_at", m.created_at), ("updated_at", m.updated_at),
   ("owner", m.owner), ("comment", m.comment), ("store_type", m.store_type),
   ("status", m.status), ("is_default", m.is_default), ("region", m.region),
   ("endpoint", m.endpoint), ("database_name", m.database_name),
   ("schema_name", m.schema_name)]

/-- `super().from_dict(data)` as called by `Store.from_dict`: the same
base mapping pass, but with `cls = Store`, so the field filter and the
constructed record are `Store`'s. -/
def Store.base_from_dict (data : List (String × PyVal)) :
    Except String StoreRec :=
  match data.foldlM (fun acc kv => mapBaseField acc kv.1 kv.2) [] with
  | Except.error e => Except.error e
  | Except.ok mapped_data =>
    let filtered_data := mapped_data.filter
      (fun kv => storeFieldNames.contains kv.1)
    match dictGet filtered_data "name" with
    | Option.none =>
      Except.error "TypeError: __init__ missing required argument name"
    | Option.some nv =>
      Except.ok
        { name := nv,
          created_at := (dictGet filtered_data "created_at").getD PyVal.none,
          updated_at := (dictGet filtered_data "updated_at").getD PyVal.none,
          owner := (dictGet filtered_data "owner").getD PyVal.none,
          comment := (dictGet filtered_data "comment").getD PyVal.none,
          store_type := (dictGet filtered_data "store_type").getD PyVal.none,
          status := (dictGet filtered_data "status").getD PyVal.none,
          is_default := (dictGet filtered_data "is_default").getD PyVal.none,
          region := (dictGet filtered_data "region").getD PyVal.none,
          endpoint := (dictGet filtered_data "endpoint").getD PyVal.none,
          database_name := (dictGet filtered_data "database_name").getD PyVal.none,
          schema_name := (dictGet filtered_data "schema_name").getD PyVal.none }

/-- One iteration of the store-specific mapping loop of `Store.from_dict`
(`models/stores.py`, lines 37–53); unrecognized fields are left alone (the
loop has no else branch). -/
def mapStoreField (acc : List (String × PyVal)) (field_name : String)
    (value : PyVal) : List (String × PyVal) :=
  let fl := pyLower field_name
  if fl = "type" || fl = "store_type" then dictInsert acc "store_type" value
  else if fl = "status" || fl = "state" then dictInsert acc "status" value
  else if fl = "is_default" || fl = "default" || fl = "is default" then
    dictInsert acc "is_default" value
  else if fl = "region" then dictInsert acc "region" value
  else if fl = "endpoint" then dictInsert acc "endpoint" value
  else if fl = "database" || fl = "database_name" then
    dictInsert acc "database_name" value
  else if fl = "schema" || fl = "schema_name" then
    dictInsert acc "schema_name" value
  else acc

/-- `Store.from_dict` (`models/stores.py`, lines 27–59): run the base pass
(whose `TypeError` propagates), seed `mapped_data` with its `asdict`
output, apply the store-specific mappings over the raw input, filter to
`Store`'s fields and construct. -/
def Store.from_dict (data : List (String × PyVal)) : Except String StoreRec :=
  match Store.base_from_dict data with
  | Except.error e => Except.error e
  | Except.ok b =>
    let mapped_data := data.foldl (fun acc kv => mapStoreField acc kv.1 kv.2)
      b.to_dict
    let filtered_data := mapped_data.filter
      (fun kv => storeFieldNames.contains kv.1)
    match dictGet filtered_data "name" with
    | Option.some nv =>
      Except.ok
        { name := nv,
          created_at := (dictGet filtered_data "created_at").getD PyVal.none,
          updated_at := (dictGet filtered_data "updated_at").getD PyVal.none,
          owner := (dictGet filtered_data "owner").getD PyVal.none,
          comment := (dictGet filtered_data "comment").getD PyVal.none,
          store_type := (dictGet filtered_data "store_type").getD PyVal.none,
          status := (dictGet filtered_data "status").getD PyVal.none,
          is_default := (dictGet filtered_data "is_default").getD PyVal.none,
          region := (dictGet filtered_data "region").getD PyVal.none,
          endpoint := (dictGet filtered_data "endpoint").getD PyVal.none,
          database_name := (dictGet filtered_data "database_name").getD PyVal.none,
          schema_name := (dictGet filtered_data "schema_name").getD PyVal.none }
    | Option.none =>
      Except.error "TypeError: __init__ missing required argument name"

/-! ## `StoreCreateParams` / `StoreUpdateParams` (`models/stores.py`) -/

/-- `if self.field: params[key] = self.field` for an `Optional[str]` field:
python truthiness skips both `None` and the empty string. -/
def optStrParam (key : String) (v : Option String) : List (String × String) :=
  match v with
  | Option.none => []
  | Option.some s => if s.isEmpty then [] else [(key, s)]

/-- `if self.field: params[key] = self.field` for a required `str` field. -/
def reqStrParam (key : String) (s : String) : List (String × String) :=
  if s.isEmpty then [] else [(key, s)]

/-- `str(b).upper()` for a python `bool`. -/
def pyBoolUpper (b : Bool) : String :=
  if b then "TRUE" else "FALSE"

/-- `if self.field is not None: params[key] = str(self.field).upper()` for
an `Optional[bool]` field: `False` is kept. -/
def optBoolParam (key : String) (v : Option Bool) : List (String × String) :=
  match v with
  | Option.none => []
  | Option.some b => [(key, pyBoolUpper b)]

/-- `if self.field is not None: params[key] = str(self.field)` for an
`Optional[int]` field: `0` is kept. -/
def optIntParam (key : String) (v : Option Int) : List (String × String) :=
  match v with
  | Option.none => []
  | Option.some n => [(key, toString n)]

/-- `StoreCreateParams` (`models/stores.py`, lines 62–156), fields in
source order. `additional_properties` is an optional python dict. -/
structure StoreCreateParams where
  name : String
  store_type : String
  uris : Option String := Option.none
  tls_disabled : Option Bool := Option.none
  tls_verify_server_hostname : Option Bool := Option.none
  tls_ca_cert_file : Option String := Option.none
  tls_cipher_suites : Option String := Option.none
  tls_protocols : Option String := Option.none
  schema_registry_name : Option String := Option.none
  properties_file : Option String := Option.none
  kafka_sasl_hash_function : Option String := Option.none
  kafka_sasl_username : Option String := Option.none
  kafka_sasl_password : Option String := Option.none
  kafka_msk_aws_region : Option String := Option.none
  kafka_msk_iam_role_arn : Option String := Option.none
  tls_client_cert_file : Option String := Option.none
  tls_client_key_file : Option String := Option.none
  kinesis_iam_role_arn : Option String := Option.none
  kinesis_access_key_id : Option String := Option.none
  kinesis_secret_access_key : Option String := Option.none
  clickhouse_username : Option String := Option.none
  clickhouse_password : Option String := Option.none
  databricks_app_token : Option String := Option.none
  databricks_warehouse_id : Option String := Option.none
  databricks_warehouse_port : Option Int := Option.none
  databricks_cloud_s3_bucket : Option String := Option.none
  databricks_cloud_region : Option String := Option.none
  iceberg_rest_client_id : Option String := Option.none
  iceberg_rest_client_secret : Option String := Option.none
  iceberg_rest_client_scope : Option String := Option.none
  iceberg_catalog_id : Option String := Option.none
  postgres_username : Option String := Option.none
  postgres_password : Option String := Option.none
  snowflake_account_id : Option String := Option.none
  snowflake_cloud_region : Option String := Option.none
  snowflake_role_name : Option String := Option.none
  snowflake_username : Option String := Option.none
  snowflake_warehouse_name : Option String := Option.none
  snowflake_client_key_file : Option String := Option.none
  snowflake_client_key_passphrase : Option String := Option.none
  aws_iam_role_arn : Option String := Option.none
  aws_iam_external_id : Option String := Option.none
  aws_access_key_id : Option String := Option.none
  aws_secret_access_key : Option String := Option.none
  aws_region : Option String := Option.none
  iceberg_warehouse_default_path : Option String := Option.none
  additional_properties : Option (List (String × String)) := Option.none
  comment : Option String := Option.none
deriving DecidableEq, Repr

/-- The `params` dict built by `StoreCreateParams.to_with_clause`
(`models/stores.py`, lines 158–281) before the `additional_properties`
update. Each `params[key] = value` assignment in the source uses a fresh,
pairwise distinct literal key, so each one appends; the assignments are
embedded as a concatenation in source order. -/
def StoreCreateParams.with_params (p : StoreCreateParams) :
    List (String × String) :=
  reqStrParam "type" p.store_type ++
    optStrParam "uris" p.uris ++
    optBoolParam "tls.disabled" p.tls_disabled ++
    optBoolParam "tls.verify_server_hostname" p.tls_verify_server_hostname ++
    optStrParam "tls.ca_cert_file" p.tls_ca_cert_file ++
    optStrParam "tls.cipher_suites" p.tls_cipher_suites ++
    optStrParam "tls.protocols" p.tls_protocols ++
    optStrParam "schema_registry.name" p.schema_registry_name ++
    optStrParam "properties.file" p.properties_file ++
    optStrParam "kafka.sasl.hash_function" p.kafka_sasl_hash_function ++
    optStrParam "kafka.sasl.username" p.kafka_sasl_username ++
    optStrParam "kafka.sasl.password" p.kafka_sasl_password ++
    optStrParam "kafka.msk.aws_region" p.kafka_msk_aws_region ++
    optStrParam "kafka.msk.iam_role_arn" p.kafka_msk_iam_role_arn ++
    optStrParam "tls.client.cert_file" p.tls_client_cert_file ++
    optStrParam "tls.client.key_file" p.tls_client_key_file ++
    optStrParam "kinesis.iam_role_arn" p.kinesis_iam_role_arn ++
    optStrParam "kinesis.access_key_id" p.kinesis_access_key_id ++
    optStrParam "kinesis.secret_access_key" p.kinesis_secret_access_key ++
    optStrParam "clickhouse.username" p.clickhouse_username ++
    optStrParam "clickhouse.password" p.clickhouse_password ++
    optStrParam "databricks.app_token" p.databricks_app_token ++
    optStrParam "databricks.warehouse_id" p.databricks_warehouse_id ++
    optIntParam "databricks.warehouse_port" p.databricks_warehouse_port ++
    optStrParam "databricks.cloud.s3.bucket" p.databricks_cloud_s3_bucket ++
    optStrParam "databricks.cloud.region" p.databricks_cloud_region ++
    optStrParam "iceberg.rest.client_id" p.iceberg_rest_client_id ++
    optStrParam "iceberg.rest.client_secret" p.iceberg_rest_client_secret ++
    optStrParam "iceberg.rest.client_scope" p.iceberg_rest_client_scope ++
    optStrParam "iceberg.catalog.id" p.iceberg_catalog_id ++
    optStrParam "postgres.username" p.postgres_username ++
    optStrParam "postgres.password" p.postgres_password ++
    optStrParam "snowflake.account_id" p.snowflake_account_id ++
    optStrParam "snowflake.cloud.region" p.snowflake_cloud_region ++
    optStrParam "snowflake.role_name" p.snowflake_role_name ++
    optStrParam "snowflake.username" p.snowflake_username ++
    optStrParam "snowflake.warehouse_name" p.snowflake_warehouse_name ++
    optStrParam "snowflake.client.key_file" p.snowflake_client_key_file ++
    optStrParam "snowflake.client.key_passphrase" p.snowflake_client_key_passphrase ++
    optStrParam "aws.iam_role_arn" p.aws_iam_role_arn ++
    optStrParam "aws.iam_external_id" p.aws_iam_external_id ++
    optStrParam "aws.access_key_id" p.aws_access_key_id ++
    optStrParam "aws.secret_access_key" p.aws_secret_access_key ++
    optStrParam "aws.region" p.aws_region ++
    optStrParam "iceberg.warehouse.default_path" p.iceberg_warehouse_default_path

/-- `StoreCreateParams.to_with_clause` (`models/stores.py`, lines 158–286):
the `params` dict above, then `params.update(additional_properties)` with
real insert-or-overwrite dict semantics (the source's truthiness guard on
`additional_properties` is a no-op in the embedding because updating with
an empty dict changes nothing). -/
def StoreCreateParams.to_with_clause (p : StoreCreateParams) :
    List (String × String) :=
  match p.additional_properties with
  | Option.some extra => dictUpdate p.with_params extra
  | Option.none => p.with_params

/-- `StoreUpdateParams` (`models/stores.py`, lines 289–306). -/
structure StoreUpdateParams where
  additional_properties : Option (List (String × String)) := Option.none
  comment : Option String := Option.none
deriving DecidableEq, Repr

/-- `StoreUpdateParams.to_with_clause`. -/
def StoreUpdateParams.to_with_clause (p : StoreUpdateParams) :
    List (String × String) :=
  match p.additional_properties with
  | Option.some extra => dictUpdate [] extra
  | Option.none => []

/-! ## `StoreManager` statement assembly (`resources/stores.py`) -/

/-- Doubling of embedded double quotes, used by identifier escaping. -/
def escapeDQuoteChars : List Char → List Char
  | [] => []
  | c :: rest =>
    if c = dquote then dquote :: dquote :: escapeDQuoteChars rest
    else c :: escapeDQuoteChars rest

/-- Modelled from the spec: `BaseResourceManager._escape_identifier`
(`resources/base.py` is not among the given source files). Per spec §4.2 it
wraps the name in double quotes and doubles any embedded double quote,
treating dotted names as one opaque literal. -/
def escape_identifier (name : String) : String :=
  String.singleton dquote ++ String.mk (escapeDQuoteChars name.data) ++
    String.singleton dquote

/-- `WithClause` parameter dicts built by the store params carry string
values; `to_sql` sees them as python objects. -/
def toPyParams (l : List (String × String)) : List (String × PyVal) :=
  l.map (fun p => (p.1, PyVal.str p.2))

namespace StoreManager

/-- `StoreManager._get_describe_sql` (`resources/stores.py`, lines 30–33). -/
def _get_describe_sql (name : String) : String :=
  "DESCRIBE STORE " ++ escape_identifier name

/-- `StoreManager._get_create_sql` (`resources/stores.py`, lines 35–53),
embedded for the branch receiving a `StoreCreateParams` object. -/
def _get_create_sql (p : StoreCreateParams) : String :=
  let name := escape_identifier p.name
  let sql := "CREATE STORE " ++ name
  let wc := p.to_with_clause
  if !wc.isEmpty then sql ++ " " ++ WithClause.to_sql (toPyParams wc) else sql

/-- `StoreManager._get_update_sql` (`resources/stores.py`, lines 55–72),
embedded for the branch receiving a `StoreUpdateParams` object. -/
def _get_update_sql (name : String) (p : StoreUpdateParams) : String :=
  let escaped_name := escape_identifier name
  let sql := "UPDATE STORE " ++ escaped_name
  let wc := p.to_with_clause
  if !wc.isEmpty then sql ++ " " ++ WithClause.to_sql (toPyParams wc) else sql

/-- `StoreManager._get_delete_sql` (`resources/stores.py`, lines 74–77). -/
def _get_delete_sql (name : String) : String :=
  "DROP STORE " ++ escape_identifier name

end StoreManager

/-- The part of the SDK error taxonomy that retrieval can signal
(spec section 7; `exceptions.py` is not among the given source files). -/
inductive SDKError where
  | resourceNotFound (msg : String)
  | sqlError (msg : String)
deriving DecidableEq, Repr

/-- Modelled from the spec: `BaseResourceManager.get`
(`resources/base.py` is not among the given source files). Per spec
sections 4.3 and 7, a describe/get whose underlying query returns zero
rows fails with a not-found error carrying the requested name; otherwise
the first row is materialized through the record type's `from_dict`. -/
def StoreManager.get (name : String)
    (rows : List (List (String × PyVal))) : Except SDKError StoreRec :=
  match rows with
  | [] =>
    Except.error (SDKError.resourceNotFound ("Store '" ++ name ++ "' not found"))
  | row :: _ =>
    match Store.from_dict row with
    | Except.ok s => Except.ok s
    | Except.error e => Except.error (SDKError.sqlError e)

/-! ## Helper lemmas -/

theorem squote_str : String.singleton squote = "'" := rfl

theorem escapeQuoteChars_eq_nil {l : List Char} (h : escapeQuoteChars l = []) :
    l = [] := by
  cases l with
  | nil => rfl
  | cons c t =>
    unfold escapeQuoteChars at h
    by_cases hc : c = squote <;> simp [hc] at h

theorem undouble_escape (l : List Char) :
    undoubleQuotes (escapeQuoteChars l) = l := by
  induction l with
  | nil => rfl
  | cons c t ih =>
    by_cases hc : c = squote
    · subst hc
      simp [escapeQuoteChars, undoubleQuotes, ih]
    · rw [escapeQuoteChars]
      simp only [if_neg hc]
      cases he : escapeQuoteChars t with
      | nil =>
        have ht := escapeQuoteChars_eq_nil he
        subst ht
        rfl
      | cons d ds =>
        rw [undoubleQuotes]
        rw [if_neg (by simp [hc])]
        rw [← he, ih]

theorem mk_data (s : String) : String.mk s.data = s := rfl

theorem dictGet_cons {α : Type} (x : String × α) (d : List (String × α)) (k : String) :
    dictGet (x :: d) k = if x.1 = k then Option.some x.2 else dictGet d k := by
  by_cases h : x.1 = k <;> simp [dictGet, List.find?, h]

theorem dictHasKey_cons {α : Type} (x : String × α) (d : List (String × α)) (k : String) :
    dictHasKey (x :: d) k = ((x.1 = k) || dictHasKey d k) := by
  simp [dictHasKey, List.any_cons]

theorem dictHasKey_append {α : Type} (a b : List (String × α)) (k : String) :
    dictHasKey (a ++ b) k = (dictHasKey a k || dictHasKey b k) := by
  simp [dictHasKey, List.any_append]

theorem dictGet_append_left_none {α : Type} {a : List (String × α)} {k : String}
    (h : dictHasKey a k = false) (b : List (String × α)) :
    dictGet (a ++ b) k = dictGet b k := by
  induction a with
  | nil => rfl
  | cons x t ih =>
    rw [dictHasKey_cons] at h
    simp only [Bool.or_eq_false_iff] at h
    rw [List.cons_append, dictGet_cons, if_neg (by simpa using h.1)]
    exact ih h.2

theorem dictGet_mapOverwrite_ne {α : Type} (d : List (String × α)) {k k2 : String}
    (v : α) (h : k2 ≠ k) :
    dictGet (d.map (fun p => if p.1 = k2 then (p.1, v) else p)) k = dictGet d k := by
  induction d with
  | nil => rfl
  | cons y t ih =>
    rw [List.map_cons, dictGet_cons, dictGet_cons]
    by_cases hy : y.1 = k2
    · rw [if_pos hy]
      simp only [hy]
      rw [if_neg h, if_neg (hy ▸ h), ih]
    · rw [if_neg hy, ih]

theorem dictGet_append_singleton_ne {α : Type} (d : List (String × α)) {k k2 : String}
    (v : α) (h : k2 ≠ k) : dictGet (d ++ [(k2, v)]) k = dictGet d k := by
  induction d with
  | nil => simp [dictGet, List.find?, h]
  | cons y t ih => rw [List.cons_append, dictGet_cons, dictGet_cons, ih]

theorem dictGet_dictInsert_ne {α : Type} (d : List (String × α)) {k k2 : String} (v : α)
    (h : k2 ≠ k) : dictGet (dictInsert d k2 v) k = dictGet d k := by
  unfold dictInsert
  split
  · exact dictGet_mapOverwrite_ne d v h
  · exact dictGet_append_singleton_ne d v h

theorem dictInsert_hasKey {α : Type} (d : List (String × α)) (k k2 : String) (v : α)
    (h : dictHasKey d k = true) : dictHasKey (dictInsert d k2 v) k = true := by
  unfold dictInsert
  split
  · simp only [dictHasKey, List.any_map, List.any_eq_true] at h ⊢
    obtain ⟨p, hp, hk⟩ := h
    refine ⟨p, hp, ?_⟩
    by_cases h2 : p.1 = k2 <;> simp_all [Function.comp]
  · simp only [dictHasKey, List.any_append, Bool.or_eq_true]
    left
    exact h

theorem dictUpdate_hasKey {α : Type} (extra : List (String × α)) (d : List (String × α))
    (k : String) (h : dictHasKey d k = true) : dictHasKey (dictUpdate d extra) k = true := by
  induction extra generalizing d with
  | nil => exact h
  | cons x t ih => exact ih _ (dictInsert_hasKey _ _ _ _ h)

theorem dictGet_dictUpdate_of_not_hasKey {α : Type} (extra : List (String × α))
    (d : List (String × α)) {k : String} (h : dictHasKey extra k = false) :
    dictGet (dictUpdate d extra) k = dictGet d k := by
  induction extra generalizing d with
  | nil => rfl
  | cons x t ih =>
    rw [dictHasKey_cons] at h
    simp only [Bool.or_eq_false_iff] at h
    show dictGet (dictUpdate (dictInsert d x.1 x.2) t) k = dictGet d k
    rw [ih _ h.2, dictGet_dictInsert_ne _ _ (by simpa using h.1)]

theorem hasKey_reqStrParam_ne (k0 s : String) {k : String} (h : k0 ≠ k) :
    dictHasKey (reqStrParam k0 s) k = false := by
  unfold reqStrParam
  split <;> simp [dictHasKey, h]

theorem hasKey_optStrParam_ne (k0 : String) (v : Option String) {k : String} (h : k0 ≠ k) :
    dictHasKey (optStrParam k0 v) k = false := by
  unfold optStrParam
  rcases v with _ | s
  · rfl
  · split <;> simp [dictHasKey, h]

theorem hasKey_optBoolParam_ne (k0 : String) (v : Option Bool) {k : String} (h : k0 ≠ k) :
    dictHasKey (optBoolParam k0 v) k = false := by
  unfold optBoolParam
  rcases v with _ | b <;> simp [dictHasKey, h]

theorem to_sql_ne_empty (params : List (String × PyVal)) (h : params ≠ []) :
    WithClause.to_sql params ≠ "" := by
  intro heq
  rw [WithClause.to_sql, if_neg (by simpa using h)] at heq
  have hl := congrArg String.length heq
  simp [String.length_append] at hl
  exact absurd hl.1.1 (by decide)


theorem dictInsert_hasKey_self {α : Type} (d : List (String × α)) (k : String) (v : α) :
    dictHasKey (dictInsert d k v) k = true := by
  unfold dictInsert
  split
  · next hc =>
    simp only [dictHasKey, List.any_map, List.any_eq_true] at hc ⊢
    obtain ⟨p, hp, hk⟩ := hc
    refine ⟨p, hp, ?_⟩
    simp_all
  · simp [dictHasKey, List.any_append]

theorem mapBaseField_ok (acc : List (String × PyVal)) (f : String) (v : PyVal)
    (hdt : createdSynonyms.contains (pyLower f) = true ∨
        updatedSynonyms.contains (pyLower f) = true →
      ∃ r, _parse_datetime v = Except.ok r) :
    ∃ acc2, mapBaseField acc f v = Except.ok acc2 ∧
      (∀ k, dictHasKey acc k = true → dictHasKey acc2 k = true) ∧
      (nameSynonyms.contains (pyLower f) = true →
        dictHasKey acc2 "name" = true) := by
  unfold mapBaseField
  dsimp only
  by_cases h1 : nameSynonyms.contains (pyLower f) = true
  · rw [if_pos h1]
    exact ⟨_, rfl, fun k hk => dictInsert_hasKey _ _ _ _ hk,
      fun _ => dictInsert_hasKey_self _ _ _⟩
  · rw [if_neg h1]
    by_cases h2 : createdSynonyms.contains (pyLower f) = true
    · obtain ⟨r, hr⟩ := hdt (Or.inl h2)
      rw [if_pos h2, hr]
      exact ⟨_, rfl, fun k hk => dictInsert_hasKey _ _ _ _ hk,
        fun hn => absurd hn h1⟩
    · rw [if_neg h2]
      by_cases h3 : updatedSynonyms.contains (pyLower f) = true
      · obtain ⟨r, hr⟩ := hdt (Or.inr h3)
        rw [if_pos h3, hr]
        exact ⟨_, rfl, fun k hk => dictInsert_hasKey _ _ _ _ hk,
          fun hn => absurd hn h1⟩
      · rw [if_neg h3]
        by_cases h4 : pyLower f = "owner"
        · rw [if_pos h4]
          exact ⟨_, rfl, fun k hk => dictInsert_hasKey _ _ _ _ hk,
            fun hn => absurd hn h1⟩
        · rw [if_neg h4]
          by_cases h5 : pyLower f = "comment"
          · rw [if_pos h5]
            exact ⟨_, rfl, fun k hk => dictInsert_hasKey _ _ _ _ hk,
              fun hn => absurd hn h1⟩
          · rw [if_neg h5]
            exact ⟨_, rfl, fun k hk => dictInsert_hasKey _ _ _ _ hk,
              fun hn => absurd hn h1⟩

theorem mapStoreField_preserves_hasKey (acc : List (String × PyVal))
    (f : String) (v : PyVal) {k : String} (h : dictHasKey acc k = true) :
    dictHasKey (mapStoreField acc f v) k = true := by
  unfold mapStoreField
  dsimp only
  repeat' split
  all_goals first
  | exact dictInsert_hasKey _ _ _ _ h
  | exact h

theorem foldlM_mapBaseField_ok (data : List (String × PyVal)) :
    ∀ acc : List (String × PyVal),
      (∀ kv, kv ∈ data →
        createdSynonyms.contains (pyLower kv.1) = true ∨
          updatedSynonyms.contains (pyLower kv.1) = true →
        ∃ r, _parse_datetime kv.2 = Except.ok r) →
      ∃ mapped,
        data.foldlM (fun acc kv => mapBaseField acc kv.1 kv.2) acc =
          Except.ok mapped ∧
        (dictHasKey acc "name" = true → dictHasKey mapped "name" = true) ∧
        ((∃ kv, kv ∈ data ∧ nameSynonyms.contains (pyLower kv.1) = true) →
          dictHasKey mapped "name" = true) := by
  induction data with
  | nil =>
    intro acc _
    refine ⟨acc, rfl, fun h => h, fun h => ?_⟩
    obtain ⟨kv, hmem, _⟩ := h
    exact absurd hmem (List.not_mem_nil kv)
  | cons x t ih =>
    intro acc hdt
    obtain ⟨acc2, hstep, hpres, hself⟩ :=
      mapBaseField_ok acc x.1 x.2 (hdt x (List.mem_cons_self x t))
    obtain ⟨mapped, hfold, hpres2, hsyn2⟩ :=
      ih acc2 (fun kv hm => hdt kv (List.mem_cons_of_mem x hm))
    refine ⟨mapped, ?_, fun hacc => hpres2 (hpres _ hacc), fun hex => ?_⟩
    · rw [List.foldlM_cons, hstep]
      simpa using hfold
    · obtain ⟨kv, hmem, hn⟩ := hex
      rcases List.mem_cons.mp hmem with rfl | hmem2
      · exact hpres2 (hself hn)
      · exact hsyn2 ⟨kv, hmem2, hn⟩

theorem foldl_mapStoreField_preserves (data : List (String × PyVal)) {k : String} :
    ∀ acc : List (String × PyVal), dictHasKey acc k = true →
      dictHasKey (data.foldl (fun acc kv => mapStoreField acc kv.1 kv.2) acc)
        k = true := by
  induction data with
  | nil => intro acc h; exact h
  | cons x t ih =>
    intro acc h
    rw [List.foldl_cons]
    exact ih _ (mapStoreField_preserves_hasKey _ _ _ h)

theorem hasKey_filter_names {l : List (String × PyVal)} {names : List String}
    {k : String} (hk : names.contains k = true)
    (h : dictHasKey l k = true) :
    dictHasKey (l.filter (fun kv => names.contains kv.1)) k = true := by
  simp only [dictHasKey, List.any_eq_true] at h ⊢
  obtain ⟨p, hp, hpk⟩ := h
  refine ⟨p, List.mem_filter.mpr ⟨hp, ?_⟩, hpk⟩
  simp only [decide_eq_true_eq] at hpk
  rw [hpk]
  exact hk

theorem dictGet_isSome_of_hasKey {α : Type} {d : List (String × α)} {k : String}
    (h : dictHasKey d k = true) : ∃ v, dictGet d k = Option.some v := by
  simp only [dictHasKey, List.any_eq_true] at h
  obtain ⟨q, hq, hqk⟩ := h
  rcases hf : d.find? (fun p => p.1 = k) with _ | p
  · have := List.find?_eq_none.mp hf q hq
    exact absurd hqk (by simpa using this)
  · exact ⟨p.2, by rw [dictGet, hf]; rfl⟩


theorem findSome?_first_hit {α β : Type} (l : List α) (f : α → Option β) :
    ∀ (i : Nat) (h : i < l.length) (b : β),
      (∀ j (hj : j < i), f (l.get ⟨j, Nat.lt_trans hj h⟩) = Option.none) →
      f (l.get ⟨i, h⟩) = Option.some b →
      l.findSome? f = Option.some b := by
  induction l with
  | nil => intro i h; exact absurd h (by simp)
  | cons x t ih =>
    intro i h b hprev hcur
    match i with
    | 0 =>
      have hx : f x = Option.some b := hcur
      simp [List.findSome?, hx]
    | Nat.succ i2 =>
      have h0 : f x = Option.none := hprev 0 (Nat.succ_pos _)
      have hrec := ih i2 (Nat.lt_of_succ_lt_succ h) b
        (fun j hj => hprev (j + 1) (Nat.succ_lt_succ hj)) hcur
      simp [List.findSome?, h0]
      exact hrec

theorem findSome?_all_none {α β : Type} (l : List α) (f : α → Option β)
    (h : ∀ a ∈ l, f a = Option.none) : l.findSome? f = Option.none :=
  List.findSome?_eq_none_iff.mpr h

theorem formats_empty_input : ∀ f ∈ datetimeFormats, f "" = Option.none := by
  intro f hf
  simp only [datetimeFormats, List.mem_cons, List.not_mem_nil, or_false] at hf
  rcases hf with rfl | rfl | rfl | rfl | rfl | rfl <;> rfl


theorem except_ok_bind {ε α β : Type} (a : α) (f : α → Except ε β) :
    (Except.ok a >>= f : Except ε β) = f a := rfl

theorem except_error_bind {ε α β : Type} (e : ε) (f : α → Except ε β) :
    ((Except.error e : Except ε α) >>= f) = Except.error e := rfl

theorem filter_mapOverwrite_not_kept {α : Type} (d : List (String × α))
    {kk : String} (v : α) {P : String → Bool} (h : P kk = false) :
    (d.map (fun p => if p.1 = kk then (p.1, v) else p)).filter
        (fun kv => P kv.1) =
      d.filter (fun kv => P kv.1) := by
  induction d with
  | nil => rfl
  | cons y t ih =>
    rw [List.map_cons, List.filter_cons, List.filter_cons]
    by_cases hy : y.1 = kk
    · rw [if_pos hy]
      simp only [hy, h]
      exact ih
    · rw [if_neg hy]
      cases hP : P y.1 <;> simp [hP, ih]

theorem filter_dictInsert_not_kept {α : Type} (d : List (String × α)) (kk : String)
    (v : α) (P : String → Bool) (h : P kk = false) :
    (dictInsert d kk v).filter (fun kv => P kv.1) = d.filter (fun kv => P kv.1) := by
  unfold dictInsert
  split
  · exact filter_mapOverwrite_not_kept d v h
  · rw [List.filter_append]
    simp [List.filter_cons, h]

/-! ## Claim theorems -/

/-- C1: `WithClause.to_sql` renders a key in the fixed unquoted-keyword set
`{type, kafka.sasl.hash_function, tls.disabled, tls.verify_server_hostname}`
as `'<key>' = <value>` (no quotes, no escaping of the value), and every
other key as `'<key>' = '<value>'` with every single quote of the value
doubled; the set `unquoted_param_names` is a static constant, used
identically for every mapping, so the policy is independent of the
resource kind. -/
theorem with_clause_quoting_policy (parameters : List (String × PyVal))
    (key : String) (v : PyVal) :
    (unquoted_param_names.contains key = true →
      withFragment key v = "'" ++ key ++ "' = " ++ pyStr v) ∧
    (unquoted_param_names.contains key = false →
      withFragment key v = "'" ++ key ++ "' = '" ++ escape_value v ++ "'") ∧
    WithClause.to_sql parameters =
      (if parameters.isEmpty then ""
       else "WITH (" ++ String.intercalate ", "
         (parameters.map (fun p => withFragment p.1 p.2)) ++ ")") := by
  refine ⟨fun h => ?_, fun h => ?_, rfl⟩
  · rw [withFragment, should_quote_value, h]
    simp [squote_str, String.append_assoc]
  · rw [withFragment, should_quote_value, h]
    simp [squote_str, String.append_assoc]

/-- C1 witness: the policy evaluated at the unquoted key `type` and at the
quoted key `password` whose value holds a single quote. -/
theorem with_clause_quoting_policy_witness :
    withFragment "type" (PyVal.str "KAFKA") = "'type' = KAFKA" ∧
    withFragment "password" (PyVal.str "pa'ss") = "'password' = 'pa''ss'" := by
  constructor
  · have h := (with_clause_quoting_policy [] "type" (PyVal.str "KAFKA")).1 (by decide)
    rw [h]
    decide
  · have h := (with_clause_quoting_policy [] "password" (PyVal.str "pa'ss")).2.1 (by decide)
    rw [h]
    decide

/-- C2 counterexample: `WithClause.to_sql` does not skip a key whose value
is `None` — the loop over `self.parameters.items()` has no absent-value
test, so `{"k": None}` is rendered as `'k' = 'None'` (via `str(None)`),
not dropped, contradicting the claim that the fragment count equals the
count of non-`None` entries (which here is `0`). -/
theorem with_clause_none_value_rendered :
    WithClause.to_sql [("k", PyVal.none)] = "WITH ('k' = 'None')" ∧
    (withClauseFragments [("k", PyVal.none)]).length ≠ 0 :=
  ⟨by decide, by decide⟩

/-- C2 (amended): `WithClause.to_sql` skips nothing: it emits one
`key = value` fragment per entry of the mapping, `None`-valued entries
included (rendered through `str`), so the fragment count equals the total
entry count. The skipping of absent (`None`) parameters happens upstream,
in the parameter objects' `to_with_clause` builders, before the mapping
reaches `WithClause`. -/
theorem with_clause_emits_every_entry (parameters : List (String × PyVal)) :
    (withClauseFragments parameters).length = parameters.length ∧
    WithClause.to_sql parameters =
      (if parameters.isEmpty then ""
       else "WITH (" ++ String.intercalate ", " (withClauseFragments parameters) ++ ")") :=
  ⟨List.length_map _ _, rfl⟩

/-- C3: the single-quoted-literal escaping of clause values round-trips:
stripping the outer quotes off the emitted literal `'<escaped>'` and
undoubling every doubled single quote recovers the original string. -/
theorem escape_value_roundtrips (s : String) :
    stripOuterQuotes
        (String.singleton squote ++ escape_value (PyVal.str s) ++
          String.singleton squote).data
      = (escape_value (PyVal.str s)).data ∧
    String.mk (undoubleQuotes (escape_value (PyVal.str s)).data) = s := by
  constructor
  · simp [stripOuterQuotes, String.data_append, String.singleton, escape_value]
  · show String.mk (undoubleQuotes (escapeQuoteChars s.data)) = s
    rw [undouble_escape, mk_data]

/-- C4: an empty parameter mapping renders to the empty string, and the
store statement assemblers append a `WITH (...)` clause exactly when the
parameter mapping is non-empty: with an empty mapping the statement is
exactly `CREATE STORE <name>` / `UPDATE STORE <name>`, with no empty
clause token; with a non-empty mapping the non-empty clause follows. -/
theorem store_sql_with_clause_iff_nonempty :
    WithClause.to_sql [] = "" ∧
    (∀ p : StoreCreateParams, p.to_with_clause = [] →
      StoreManager._get_create_sql p = "CREATE STORE " ++ escape_identifier p.name) ∧
    (∀ p : StoreCreateParams, p.to_with_clause ≠ [] →
      StoreManager._get_create_sql p =
        "CREATE STORE " ++ escape_identifier p.name ++ " " ++
          WithClause.to_sql (toPyParams p.to_with_clause)) ∧
    (∀ (n : String) (u : StoreUpdateParams), u.to_with_clause = [] →
      StoreManager._get_update_sql n u = "UPDATE STORE " ++ escape_identifier n) ∧
    (∀ (n : String) (u : StoreUpdateParams), u.to_with_clause ≠ [] →
      StoreManager._get_update_sql n u =
        "UPDATE STORE " ++ escape_identifier n ++ " " ++
          WithClause.to_sql (toPyParams u.to_with_clause)) ∧
    (∀ params : List (String × PyVal), params ≠ [] → WithClause.to_sql params ≠ "") := by
  refine ⟨rfl, fun p h => ?_, fun p h => ?_, fun n u h => ?_, fun n u h => ?_,
    to_sql_ne_empty⟩
  · rw [StoreManager._get_create_sql]
    simp [h]
  · rw [StoreManager._get_create_sql]
    simp [h]
  · rw [StoreManager._get_update_sql]
    simp [h]
  · rw [StoreManager._get_update_sql]
    simp [h]

/-- C4 witness: a store-create parameter object whose clause mapping is
empty yields a bare `CREATE STORE` statement, a non-empty one appends the
clause, and a bare update likewise. -/
theorem store_sql_with_clause_iff_nonempty_witness :
    StoreManager._get_create_sql { name := "t", store_type := "" } =
      "CREATE STORE " ++ escape_identifier "t" ∧
    StoreManager._get_update_sql "t" {} = "UPDATE STORE " ++ escape_identifier "t" ∧
    StoreManager._get_create_sql { name := "t", store_type := "KAFKA" } =
      "CREATE STORE " ++ escape_identifier "t" ++ " " ++
        WithClause.to_sql (toPyParams [("type", "KAFKA")]) ∧
    WithClause.to_sql [("type", PyVal.str "KAFKA")] ≠ "" := by
  refine ⟨store_sql_with_clause_iff_nonempty.2.1 _ (by decide),
    store_sql_with_clause_iff_nonempty.2.2.2.1 "t" {} (by decide), ?_, ?_⟩
  · have h := store_sql_with_clause_iff_nonempty.2.2.1
      { name := "t", store_type := "KAFKA" } (by decide)
    exact h
  · exact store_sql_with_clause_iff_nonempty.2.2.2.2.2 _ (by decide)

theorem with_params_type_get (p : StoreCreateParams) (h : p.store_type.isEmpty = false) :
    dictGet p.with_params "type" = Option.some p.store_type := by
  rw [StoreCreateParams.with_params, reqStrParam, if_neg (by simp [h])]
  simp only [List.append_assoc, List.singleton_append, List.cons_append]
  rw [dictGet_cons, if_pos rfl]

theorem with_params_type_hasKey (p : StoreCreateParams) (h : p.store_type.isEmpty = false) :
    dictHasKey p.with_params "type" = true := by
  rw [StoreCreateParams.with_params, reqStrParam, if_neg (by simp [h])]
  simp only [List.append_assoc, List.singleton_append, List.cons_append]
  rw [dictHasKey_cons]
  simp

theorem with_params_tls_disabled_get (p : StoreCreateParams) (b : Bool)
    (h1 : p.tls_disabled = Option.some b) :
    dictGet p.with_params "tls.disabled" = Option.some (pyBoolUpper b) := by
  rw [StoreCreateParams.with_params]
  simp only [List.append_assoc]
  rw [dictGet_append_left_none (hasKey_reqStrParam_ne _ _ (by decide))]
  rw [dictGet_append_left_none (hasKey_optStrParam_ne _ _ (by decide))]
  rw [h1]
  rw [show optBoolParam "tls.disabled" (Option.some b) =
    [("tls.disabled", pyBoolUpper b)] from rfl]
  rw [List.singleton_append, dictGet_cons, if_pos rfl]

theorem with_params_tls_verify_get (p : StoreCreateParams) (b : Bool)
    (h1 : p.tls_verify_server_hostname = Option.some b) :
    dictGet p.with_params "tls.verify_server_hostname" = Option.some (pyBoolUpper b) := by
  rw [StoreCreateParams.with_params]
  simp only [List.append_assoc]
  rw [dictGet_append_left_none (hasKey_reqStrParam_ne _ _ (by decide))]
  rw [dictGet_append_left_none (hasKey_optStrParam_ne _ _ (by decide))]
  rw [dictGet_append_left_none (hasKey_optBoolParam_ne _ _ (by decide))]
  rw [h1]
  rw [show optBoolParam "tls.verify_server_hostname" (Option.some b) =
    [("tls.verify_server_hostname", pyBoolUpper b)] from rfl]
  rw [List.singleton_append, dictGet_cons, if_pos rfl]

/-- C5 counterexample: `StoreCreateParams.to_with_clause` tests the
discriminator with python truthiness (`if self.store_type:`), so a
`StoreCreateParams` whose `store_type` is the empty string produces a
clause mapping with no `type` entry at all — the discriminator is not
"always emitted". -/
theorem store_type_empty_not_emitted :
    StoreCreateParams.to_with_clause { name := "s", store_type := "" } = [] ∧
    dictHasKey (StoreCreateParams.to_with_clause { name := "s", store_type := "" })
      "type" = false :=
  ⟨by decide, by decide⟩

/-- C5 (amended): whenever `store_type` is non-empty (truthy), the clause
mapping carries a `type` key; its value is `store_type` itself provided
`additional_properties` does not override the `type` key; and the `type`
key falls under the unquoted-keyword policy, so its value is rendered with
no surrounding quotes. -/
theorem store_type_discriminator (p : StoreCreateParams)
    (h : p.store_type.isEmpty = false) :
    dictHasKey p.to_with_clause "type" = true ∧
    ((∀ ap, p.additional_properties = Option.some ap → dictHasKey ap "type" = false) →
      dictGet p.to_with_clause "type" = Option.some p.store_type) ∧
    (∀ v : String, withFragment "type" (PyVal.str v) = "'type' = " ++ v) := by
  refine ⟨?_, fun hno => ?_, fun v => ?_⟩
  · unfold StoreCreateParams.to_with_clause
    cases hap : p.additional_properties with
    | none => exact with_params_type_hasKey p h
    | some ap => exact dictUpdate_hasKey ap _ _ (with_params_type_hasKey p h)
  · unfold StoreCreateParams.to_with_clause
    cases hap : p.additional_properties with
    | none => exact with_params_type_get p h
    | some ap =>
      rw [dictGet_dictUpdate_of_not_hasKey ap _ (hno ap hap)]
      exact with_params_type_get p h
  · rw [withFragment, should_quote_value]
    rw [show unquoted_param_names.contains "type" = true from by decide]
    simp [squote_str, String.append_assoc, pyStr]

/-- C5 witness: a plain `KAFKA` store create yields `type = KAFKA` in the
mapping. -/
theorem store_type_discriminator_witness :
    dictHasKey
      (StoreCreateParams.to_with_clause { name := "s", store_type := "KAFKA" })
      "type" = true ∧
    dictGet (StoreCreateParams.to_with_clause { name := "s", store_type := "KAFKA" })
      "type" = Option.some "KAFKA" ∧
    withFragment "type" (PyVal.str "KAFKA") = "'type' = KAFKA" := by
  refine ⟨(store_type_discriminator _ (by decide)).1,
    (store_type_discriminator _ (by decide)).2.1 (fun ap hap => nomatch hap), ?_⟩
  rw [(store_type_discriminator { name := "s", store_type := "KAFKA" }
    (by decide)).2.2 "KAFKA"]
  decide

/-- C6 counterexample: `additional_properties` is applied last with
overwrite semantics, so for a `StoreCreateParams` with
`tls_disabled = True` and `additional_properties = {"tls.disabled": "maybe"}`
the clause mapping's `tls.disabled` value is `maybe`, not `TRUE`, refuting
the claim for that input. -/
theorem tls_flag_overridden :
    dictGet
      (StoreCreateParams.to_with_clause
        { name := "s", store_type := "KAFKA", tls_disabled := Option.some true,
          additional_properties := Option.some [("tls.disabled", "maybe")] })
      "tls.disabled" = Option.some "maybe" ∧
    dictGet
      (StoreCreateParams.to_with_clause
        { name := "s", store_type := "KAFKA", tls_disabled := Option.some true,
          additional_properties := Option.some [("tls.disabled", "maybe")] })
      "tls.disabled" ≠ Option.some "TRUE" :=
  ⟨by decide, by decide⟩

/-- C6 (amended): when `tls_disabled` (resp. `tls_verify_server_hostname`)
is set to a boolean `b` and `additional_properties` does not override the
corresponding dotted key, the clause mapping holds that key with value
`TRUE` for true and `FALSE` for false (`str(b).upper()`); both keys are in
the unquoted set, so the emitted fragment carries the value with no
quotes. -/
theorem tls_flags_uppercase_unquoted (p : StoreCreateParams) (b : Bool) :
    (p.tls_disabled = Option.some b →
      (∀ ap, p.additional_properties = Option.some ap →
        dictHasKey ap "tls.disabled" = false) →
      dictGet p.to_with_clause "tls.disabled" =
        Option.some (if b then "TRUE" else "FALSE")) ∧
    (p.tls_verify_server_hostname = Option.some b →
      (∀ ap, p.additional_properties = Option.some ap →
        dictHasKey ap "tls.verify_server_hostname" = false) →
      dictGet p.to_with_clause "tls.verify_server_hostname" =
        Option.some (if b then "TRUE" else "FALSE")) ∧
    withFragment "tls.disabled" (PyVal.str (if b then "TRUE" else "FALSE")) =
      "'tls.disabled' = " ++ (if b then "TRUE" else "FALSE") ∧
    withFragment "tls.verify_server_hostname"
        (PyVal.str (if b then "TRUE" else "FALSE")) =
      "'tls.verify_server_hostname' = " ++ (if b then "TRUE" else "FALSE") := by
  refine ⟨fun h1 hno => ?_, fun h1 hno => ?_, ?_, ?_⟩
  · unfold StoreCreateParams.to_with_clause
    cases hap : p.additional_properties with
    | none => exact with_params_tls_disabled_get p b h1
    | some ap =>
      rw [dictGet_dictUpdate_of_not_hasKey ap _ (hno ap hap)]
      exact with_params_tls_disabled_get p b h1
  · unfold StoreCreateParams.to_with_clause
    cases hap : p.additional_properties with
    | none => exact with_params_tls_verify_get p b h1
    | some ap =>
      rw [dictGet_dictUpdate_of_not_hasKey ap _ (hno ap hap)]
      exact with_params_tls_verify_get p b h1
  · rw [withFragment, should_quote_value]
    rw [show unquoted_param_names.contains "tls.disabled" = true from by decide]
    simp [squote_str, String.append_assoc, pyStr]
  · rw [withFragment, should_quote_value]
    rw [show unquoted_param_names.contains "tls.verify_server_hostname" = true
      from by decide]
    simp [squote_str, String.append_assoc, pyStr]

/-- C6 witness: `tls_disabled = True` renders `TRUE`, and on a second
store object `tls_verify_server_hostname = False` renders `FALSE`. -/
theorem tls_flags_uppercase_unquoted_witness :
    dictGet
      (StoreCreateParams.to_with_clause
        { name := "a", store_type := "KAFKA", tls_disabled := Option.some true })
      "tls.disabled" = Option.some "TRUE" ∧
    dictGet
      (StoreCreateParams.to_with_clause
        { name := "a", store_type := "KAFKA",
          tls_verify_server_hostname := Option.some false })
      "tls.verify_server_hostname" = Option.some "FALSE" ∧
    withFragment "tls.disabled" (PyVal.str "TRUE") = "'tls.disabled' = TRUE" := by
  refine ⟨(tls_flags_uppercase_unquoted _ true).1 rfl (fun ap hap => nomatch hap),
    (tls_flags_uppercase_unquoted _ false).2.1 rfl (fun ap hap => nomatch hap), ?_⟩
  have h := (tls_flags_uppercase_unquoted
    { name := "a", store_type := "KAFKA" } true).2.2.1
  simp only [if_true] at h
  rw [h]
  decide


theorem dictHasKey_singleton_self {α : Type} (k : String) (v : α) :
    dictHasKey [(k, v)] k = true := by
  simp [dictHasKey]

theorem with_params_tls_disabled_hasKey (p : StoreCreateParams) (b : Bool)
    (h1 : p.tls_disabled = Option.some b) :
    dictHasKey p.with_params "tls.disabled" = true := by
  rw [StoreCreateParams.with_params]
  simp only [dictHasKey_append, h1]
  rw [show optBoolParam "tls.disabled" (Option.some b) =
    [("tls.disabled", pyBoolUpper b)] from rfl]
  rw [dictHasKey_singleton_self]
  simp

theorem with_params_tls_verify_hasKey (p : StoreCreateParams) (b : Bool)
    (h1 : p.tls_verify_server_hostname = Option.some b) :
    dictHasKey p.with_params "tls.verify_server_hostname" = true := by
  rw [StoreCreateParams.with_params]
  simp only [dictHasKey_append, h1]
  rw [show optBoolParam "tls.verify_server_hostname" (Option.some b) =
    [("tls.verify_server_hostname", pyBoolUpper b)] from rfl]
  rw [dictHasKey_singleton_self]
  simp

theorem with_params_port_hasKey (p : StoreCreateParams) (n : Int)
    (h1 : p.databricks_warehouse_port = Option.some n) :
    dictHasKey p.with_params "databricks.warehouse_port" = true := by
  rw [StoreCreateParams.with_params]
  simp only [dictHasKey_append, h1]
  rw [show optIntParam "databricks.warehouse_port" (Option.some n) =
    [("databricks.warehouse_port", toString n)] from rfl]
  rw [dictHasKey_singleton_self]
  simp

theorem with_params_port_get (p : StoreCreateParams) (n : Int)
    (h1 : p.databricks_warehouse_port = Option.some n) :
    dictGet p.with_params "databricks.warehouse_port" = Option.some (toString n) := by
  rw [StoreCreateParams.with_params]
  simp only [List.append_assoc]
  rw [dictGet_append_left_none (hasKey_reqStrParam_ne _ _ (by decide))]
  rw [dictGet_append_left_none (hasKey_optStrParam_ne _ _ (by decide))]
  rw [dictGet_append_left_none (hasKey_optBoolParam_ne _ _ (by decide))]
  rw [dictGet_append_left_none (hasKey_optBoolParam_ne _ _ (by decide))]
  rw [dictGet_append_left_none (hasKey_optStrParam_ne _ _ (by decide))]
  rw [dictGet_append_left_none (hasKey_optStrParam_ne _ _ (by decide))]
  rw [dictGet_append_left_none (hasKey_optStrParam_ne _ _ (by decide))]
  rw [dictGet_append_left_none (hasKey_optStrParam_ne _ _ (by decide))]
  rw [dictGet_append_left_none (hasKey_optStrParam_ne _ _ (by decide))]
  rw [dictGet_append_left_none (hasKey_optStrParam_ne _ _ (by decide))]
  rw [dictGet_append_left_none (hasKey_optStrParam_ne _ _ (by decide))]
  rw [dictGet_append_left_none (hasKey_optStrParam_ne _ _ (by decide))]
  rw [dictGet_append_left_none (hasKey_optStrParam_ne _ _ (by decide))]
  rw [dictGet_append_left_none (hasKey_optStrParam_ne _ _ (by decide))]
  rw [dictGet_append_left_none (hasKey_optStrParam_ne _ _ (by decide))]
  rw [dictGet_append_left_none (hasKey_optStrParam_ne _ _ (by decide))]
  rw [dictGet_append_left_none (hasKey_optStrParam_ne _ _ (by decide))]
  rw [dictGet_append_left_none (hasKey_optStrParam_ne _ _ (by decide))]
  rw [dictGet_append_left_none (hasKey_optStrParam_ne _ _ (by decide))]
  rw [dictGet_append_left_none (hasKey_optStrParam_ne _ _ (by decide))]
  rw [dictGet_append_left_none (hasKey_optStrParam_ne _ _ (by decide))]
  rw [dictGet_append_left_none (hasKey_optStrParam_ne _ _ (by decide))]
  rw [dictGet_append_left_none (hasKey_optStrParam_ne _ _ (by decide))]
  rw [h1]
  rw [show optIntParam "databricks.warehouse_port" (Option.some n) =
    [("databricks.warehouse_port", toString n)] from rfl]
  rw [List.singleton_append, dictGet_cons, if_pos rfl]

/-- C10 counterexample: `additional_properties` overwrites even the
`is not None`-guarded entries, so `databricks_warehouse_port = 0` together
with `additional_properties = {"databricks.warehouse_port": "9999"}` leaves
`9999`, not `0`, in the mapping — `port = 0` is not always "emitted as
`'0'`". -/
theorem port_value_overridden :
    dictGet
      (StoreCreateParams.to_with_clause
        { name := "s", store_type := "DATABRICKS",
          databricks_warehouse_port := Option.some 0,
          additional_properties :=
            Option.some [("databricks.warehouse_port", "9999")] })
      "databricks.warehouse_port" = Option.some "9999" ∧
    dictGet
      (StoreCreateParams.to_with_clause
        { name := "s", store_type := "DATABRICKS",
          databricks_warehouse_port := Option.some 0,
          additional_properties :=
            Option.some [("databricks.warehouse_port", "9999")] })
      "databricks.warehouse_port" ≠ Option.some "0" :=
  ⟨by decide, by decide⟩

/-- C10 (amended): in `StoreCreateParams.to_with_clause`, every optional
string-valued field set to the empty string is omitted exactly as if it
were `None` (inclusion is decided by python truthiness), while
`tls_disabled`, `tls_verify_server_hostname` and
`databricks_warehouse_port` are included whenever they are not `None`; in
particular `tls_disabled = False` is emitted as `FALSE` and
`databricks_warehouse_port = 0` as `'0'`, provided `additional_properties`
does not overwrite those keys (it is applied last with dict-overwrite
semantics). -/
theorem truthiness_vs_not_none_inclusion (p : StoreCreateParams) :
    (StoreCreateParams.to_with_clause { p with uris := Option.some "" } =
      StoreCreateParams.to_with_clause { p with uris := Option.none }) ∧
    (StoreCreateParams.to_with_clause { p with tls_ca_cert_file := Option.some "" } =
      StoreCreateParams.to_with_clause { p with tls_ca_cert_file := Option.none }) ∧
    (StoreCreateParams.to_with_clause { p with tls_cipher_suites := Option.some "" } =
      StoreCreateParams.to_with_clause { p with tls_cipher_suites := Option.none }) ∧
    (StoreCreateParams.to_with_clause { p with tls_protocols := Option.some "" } =
      StoreCreateParams.to_with_clause { p with tls_protocols := Option.none }) ∧
    (StoreCreateParams.to_with_clause { p with schema_registry_name := Option.some "" } =
      StoreCreateParams.to_with_clause { p with schema_registry_name := Option.none }) ∧
    (StoreCreateParams.to_with_clause { p with properties_file := Option.some "" } =
      StoreCreateParams.to_with_clause { p with properties_file := Option.none }) ∧
    (StoreCreateParams.to_with_clause { p with kafka_sasl_hash_function := Option.some "" } =
      StoreCreateParams.to_with_clause { p with kafka_sasl_hash_function := Option.none }) ∧
    (StoreCreateParams.to_with_clause { p with kafka_sasl_username := Option.some "" } =
      StoreCreateParams.to_with_clause { p with kafka_sasl_username := Option.none }) ∧
    (StoreCreateParams.to_with_clause { p with kafka_sasl_password := Option.some "" } =
      StoreCreateParams.to_with_clause { p with kafka_sasl_password := Option.none }) ∧
    (StoreCreateParams.to_with_clause { p with kafka_msk_aws_region := Option.some "" } =
      StoreCreateParams.to_with_clause { p with kafka_msk_aws_region := Option.none }) ∧
    (StoreCreateParams.to_with_clause { p with kafka_msk_iam_role_arn := Option.some "" } =
      StoreCreateParams.to_with_clause { p with kafka_msk_iam_role_arn := Option.none }) ∧
    (StoreCreateParams.to_with_clause { p with tls_client_cert_file := Option.some "" } =
      StoreCreateParams.to_with_clause { p with tls_client_cert_file := Option.none }) ∧
    (StoreCreateParams.to_with_clause { p with tls_client_key_file := Option.some "" } =
      StoreCreateParams.to_with_clause { p with tls_client_key_file := Option.none }) ∧
    (StoreCreateParams.to_with_clause { p with kinesis_iam_role_arn := Option.some "" } =
      StoreCreateParams.to_with_clause { p with kinesis_iam_role_arn := Option.none }) ∧
    (StoreCreateParams.to_with_clause { p with kinesis_access_key_id := Option.some "" } =
      StoreCreateParams.to_with_clause { p with kinesis_access_key_id := Option.none }) ∧
    (StoreCreateParams.to_with_clause { p with kinesis_secret_access_key := Option.some "" } =
      StoreCreateParams.to_with_clause { p with kinesis_secret_access_key := Option.none }) ∧
    (StoreCreateParams.to_with_clause { p with clickhouse_username := Option.some "" } =
      StoreCreateParams.to_with_clause { p with clickhouse_username := Option.none }) ∧
    (StoreCreateParams.to_with_clause { p with clickhouse_password := Option.some "" } =
      StoreCreateParams.to_with_clause { p with clickhouse_password := Option.none }) ∧
    (StoreCreateParams.to_with_clause { p with databricks_app_token := Option.some "" } =
      StoreCreateParams.to_with_clause { p with databricks_app_token := Option.none }) ∧
    (StoreCreateParams.to_with_clause { p with databricks_warehouse_id := Option.some "" } =
      StoreCreateParams.to_with_clause { p with databricks_warehouse_id := Option.none }) ∧
    (StoreCreateParams.to_with_clause { p with databricks_cloud_s3_bucket := Option.some "" } =
      StoreCreateParams.to_with_clause { p with databricks_cloud_s3_bucket := Option.none }) ∧
    (StoreCreateParams.to_with_clause { p with databricks_cloud_region := Option.some "" } =
      StoreCreateParams.to_with_clause { p with databricks_cloud_region := Option.none }) ∧
    (StoreCreateParams.to_with_clause { p with iceberg_rest_client_id := Option.some "" } =
      StoreCreateParams.to_with_clause { p with iceberg_rest_client_id := Option.none }) ∧
    (StoreCreateParams.to_with_clause { p with iceberg_rest_client_secret := Option.some "" } =
      StoreCreateParams.to_with_clause { p with iceberg_rest_client_secret := Option.none }) ∧
    (StoreCreateParams.to_with_clause { p with iceberg_rest_client_scope := Option.some "" } =
      StoreCreateParams.to_with_clause { p with iceberg_rest_client_scope := Option.none }) ∧
    (StoreCreateParams.to_with_clause { p with iceberg_catalog_id := Option.some "" } =
      StoreCreateParams.to_with_clause { p with iceberg_catalog_id := Option.none }) ∧
    (StoreCreateParams.to_with_clause { p with postgres_username := Option.some "" } =
      StoreCreateParams.to_with_clause { p with postgres_username := Option.none }) ∧
    (StoreCreateParams.to_with_clause { p with postgres_password := Option.some "" } =
      StoreCreateParams.to_with_clause { p with postgres_password := Option.none }) ∧
    (StoreCreateParams.to_with_clause { p with snowflake_account_id := Option.some "" } =
      StoreCreateParams.to_with_clause { p with snowflake_account_id := Option.none }) ∧
    (StoreCreateParams.to_with_clause { p with snowflake_cloud_region := Option.some "" } =
      StoreCreateParams.to_with_clause { p with snowflake_cloud_region := Option.none }) ∧
    (StoreCreateParams.to_with_clause { p with snowflake_role_name := Option.some "" } =
      StoreCreateParams.to_with_clause { p with snowflake_role_name := Option.none }) ∧
    (StoreCreateParams.to_with_clause { p with snowflake_username := Option.some "" } =
      StoreCreateParams.to_with_clause { p with snowflake_username := Option.none }) ∧
    (StoreCreateParams.to_with_clause { p with snowflake_warehouse_name := Option.some "" } =
      StoreCreateParams.to_with_clause { p with snowflake_warehouse_name := Option.none }) ∧
    (StoreCreateParams.to_with_clause { p with snowflake_client_key_file := Option.some "" } =
      StoreCreateParams.to_with_clause { p with snowflake_client_key_file := Option.none }) ∧
    (StoreCreateParams.to_with_clause { p with snowflake_client_key_passphrase := Option.some "" } =
      StoreCreateParams.to_with_clause { p with snowflake_client_key_passphrase := Option.none }) ∧
    (StoreCreateParams.to_with_clause { p with aws_iam_role_arn := Option.some "" } =
      StoreCreateParams.to_with_clause { p with aws_iam_role_arn := Option.none }) ∧
    (StoreCreateParams.to_with_clause { p with aws_iam_external_id := Option.some "" } =
      StoreCreateParams.to_with_clause { p with aws_iam_external_id := Option.none }) ∧
    (StoreCreateParams.to_with_clause { p with aws_access_key_id := Option.some "" } =
      StoreCreateParams.to_with_clause { p with aws_access_key_id := Option.none }) ∧
    (StoreCreateParams.to_with_clause { p with aws_secret_access_key := Option.some "" } =
      StoreCreateParams.to_with_clause { p with aws_secret_access_key := Option.none }) ∧
    (StoreCreateParams.to_with_clause { p with aws_region := Option.some "" } =
      StoreCreateParams.to_with_clause { p with aws_region := Option.none }) ∧
    (StoreCreateParams.to_with_clause { p with iceberg_warehouse_default_path := Option.some "" } =
      StoreCreateParams.to_with_clause { p with iceberg_warehouse_default_path := Option.none }) ∧
    (∀ b : Bool, p.tls_disabled = Option.some b →
      dictHasKey p.to_with_clause "tls.disabled" = true) ∧
    (∀ b : Bool, p.tls_verify_server_hostname = Option.some b →
      dictHasKey p.to_with_clause "tls.verify_server_hostname" = true) ∧
    (∀ n : Int, p.databricks_warehouse_port = Option.some n →
      dictHasKey p.to_with_clause "databricks.warehouse_port" = true) ∧
    (p.tls_disabled = Option.some false →
      (∀ ap, p.additional_properties = Option.some ap →
        dictHasKey ap "tls.disabled" = false) →
      dictGet p.to_with_clause "tls.disabled" = Option.some "FALSE") ∧
    (∀ n : Int, p.databricks_warehouse_port = Option.some n →
      (∀ ap, p.additional_properties = Option.some ap →
        dictHasKey ap "databricks.warehouse_port" = false) →
      dictGet p.to_with_clause "databricks.warehouse_port" =
        Option.some (toString n)) := by
  refine ⟨rfl, rfl, rfl, rfl, rfl, rfl, rfl, rfl, rfl, rfl, rfl, rfl, rfl, rfl, rfl, rfl, rfl, rfl, rfl, rfl, rfl, rfl, rfl, rfl, rfl, rfl, rfl, rfl, rfl, rfl, rfl, rfl, rfl, rfl, rfl, rfl, rfl, rfl, rfl, rfl, rfl, fun b h1 => ?_, fun b h1 => ?_, fun n h1 => ?_,
    fun h1 hno => ?_, fun n h1 hno => ?_⟩
  · unfold StoreCreateParams.to_with_clause
    cases hap : p.additional_properties with
    | none => exact with_params_tls_disabled_hasKey p b h1
    | some ap => exact dictUpdate_hasKey ap _ _ (with_params_tls_disabled_hasKey p b h1)
  · unfold StoreCreateParams.to_with_clause
    cases hap : p.additional_properties with
    | none => exact with_params_tls_verify_hasKey p b h1
    | some ap => exact dictUpdate_hasKey ap _ _ (with_params_tls_verify_hasKey p b h1)
  · unfold StoreCreateParams.to_with_clause
    cases hap : p.additional_properties with
    | none => exact with_params_port_hasKey p n h1
    | some ap => exact dictUpdate_hasKey ap _ _ (with_params_port_hasKey p n h1)
  · unfold StoreCreateParams.to_with_clause
    cases hap : p.additional_properties with
    | none => exact with_params_tls_disabled_get p false h1
    | some ap =>
      rw [dictGet_dictUpdate_of_not_hasKey ap _ (hno ap hap)]
      exact with_params_tls_disabled_get p false h1
  · unfold StoreCreateParams.to_with_clause
    cases hap : p.additional_properties with
    | none => exact with_params_port_get p n h1
    | some ap =>
      rw [dictGet_dictUpdate_of_not_hasKey ap _ (hno ap hap)]
      exact with_params_port_get p n h1

/-- A sample store-parameter object exercising the inclusion policy. -/
def sampleStoreParams : StoreCreateParams :=
  { name := "w", store_type := "K", tls_disabled := Option.some false,
    databricks_warehouse_port := Option.some 0 }

/-- C10 witness: the empty-string `uris` behaves as `None` on the sample
object, `tls_disabled = False` is present and renders `FALSE`, and
`databricks_warehouse_port = 0` renders `"0"`. -/
theorem truthiness_vs_not_none_inclusion_witness :
    StoreCreateParams.to_with_clause
        { sampleStoreParams with uris := Option.some "" } =
      StoreCreateParams.to_with_clause
        { sampleStoreParams with uris := Option.none } ∧
    dictHasKey (StoreCreateParams.to_with_clause sampleStoreParams)
      "tls.disabled" = true ∧
    dictGet (StoreCreateParams.to_with_clause sampleStoreParams)
      "tls.disabled" = Option.some "FALSE" ∧
    dictGet (StoreCreateParams.to_with_clause sampleStoreParams)
      "databricks.warehouse_port" = Option.some (toString (0 : Int)) := by
  obtain ⟨hu, _, _, _, _, _, _, _, _, _, _, _, _, _, _, _, _, _, _, _, _, _, _, _, _, _, _, _, _, _, _, _, _, _, _, _, _, _, _, _, _, htd, htv, hpk, hgtd, hgp⟩ :=
    truthiness_vs_not_none_inclusion sampleStoreParams
  exact ⟨hu, htd false rfl, hgtd rfl (fun ap hap => nomatch hap),
    hgp 0 rfl (fun ap hap => nomatch hap)⟩


/-- C7 counterexample: record materialization does raise on malformed
input, in two ways. With no name-synonym field, the dataclass constructor
`cls(**filtered_data)` is missing its required `name` argument and raises
`TypeError` (`Store.from_dict` inherits it through `super().from_dict`).
And with a name key present, a `created_on` value of `2 ** 63` still
raises: `datetime.fromtimestamp` throws `OverflowError` for timestamps
outside the platform `time_t`, which the `except (ValueError, OSError)`
clause does not catch. -/
theorem from_dict_missing_name_raises :
    BaseModel.from_dict [] =
      Except.error "TypeError: __init__ missing required argument name" ∧
    (∃ e, Store.from_dict [("type", PyVal.str "KAFKA")] = Except.error e) ∧
    BaseModel.from_dict
        [("Name", PyVal.str "x"), ("created_on", PyVal.int (2 ^ 63))] =
      Except.error "OverflowError: timestamp out of range for platform time_t" :=
  ⟨rfl, ⟨"TypeError: __init__ missing required argument name", rfl⟩, by decide⟩

/-- C7 (amended): whenever the input carries at least one name-mapped key
(`name`, `relation_name` or `object_name`, case-insensitively) and no
datetime-mapped field (`created_on`/`created_at`/`updated_on`/
`updated_at`/`modified_at`) holds a value whose epoch conversion raises
the uncaught `OverflowError` (a timestamp outside the platform `time_t`),
`BaseModel.from_dict` and `Store.from_dict` never raise; moreover
malformed input degrades to absent fields rather than errors: a field
entirely unrecognized by the mapping is ignored (appending it changes
nothing), fields missing from the input are `None` on the record, and a
datetime value that parses to nothing becomes an absent `created_at`. -/
theorem from_dict_no_raise_with_name (data : List (String × PyVal))
    (hname : ∃ kv, kv ∈ data ∧ nameSynonyms.contains (pyLower kv.1) = true)
    (hdt : ∀ kv, kv ∈ data →
      createdSynonyms.contains (pyLower kv.1) = true ∨
        updatedSynonyms.contains (pyLower kv.1) = true →
      ∃ r, _parse_datetime kv.2 = Except.ok r) :
    (∃ m, BaseModel.from_dict data = Except.ok m) ∧
    (∃ s, Store.from_dict data = Except.ok s) ∧
    (∀ (k : String) (v : PyVal),
      nameSynonyms.contains (pyLower k) = false →
      createdSynonyms.contains (pyLower k) = false →
      updatedSynonyms.contains (pyLower k) = false →
      pyLower k ≠ "owner" → pyLower k ≠ "comment" →
      BaseModel.from_dict (data ++ [(k, v)]) = BaseModel.from_dict data) ∧
    (∀ (nk : String) (nv : PyVal),
      nameSynonyms.contains (pyLower nk) = true →
      BaseModel.from_dict [(nk, nv)] =
        Except.ok { name := nv, created_at := PyVal.none,
                    updated_at := PyVal.none, owner := PyVal.none,
                    comment := PyVal.none }) ∧
    (∀ (nk : String) (nv v : PyVal),
      nameSynonyms.contains (pyLower nk) = true →
      _parse_datetime v = Except.ok Option.none →
      BaseModel.from_dict [(nk, nv), ("created_on", v)] =
        Except.ok { name := nv, created_at := PyVal.none,
                    updated_at := PyVal.none, owner := PyVal.none,
                    comment := PyVal.none }) := by
  obtain ⟨mapped, hfold, _, hnamekey⟩ := foldlM_mapBaseField_ok data [] hdt
  have hmap := hnamekey hname
  refine ⟨?_, ?_, ?_, ?_, ?_⟩
  · have hfb := @hasKey_filter_names _ baseFieldNames _ (by decide) hmap
    obtain ⟨v, hv⟩ := dictGet_isSome_of_hasKey hfb
    rcases hres : BaseModel.from_dict data with e | m
    · exfalso
      unfold BaseModel.from_dict at hres
      rw [hfold] at hres
      dsimp only at hres
      rw [hv] at hres
      exact Except.noConfusion hres
    · exact ⟨m, rfl⟩
  · have hfs := @hasKey_filter_names _ storeFieldNames _ (by decide) hmap
    obtain ⟨w, hw⟩ := dictGet_isSome_of_hasKey hfs
    rcases hb : Store.base_from_dict data with e | b
    · exfalso
      unfold Store.base_from_dict at hb
      rw [hfold] at hb
      dsimp only at hb
      rw [hw] at hb
      exact Except.noConfusion hb
    · have h1 : dictHasKey b.to_dict "name" = true := by
        rw [StoreRec.to_dict, dictHasKey_cons]
        simp
      have h2 := foldl_mapStoreField_preserves data b.to_dict h1
      have h3 := @hasKey_filter_names _ storeFieldNames _ (by decide) h2
      obtain ⟨u, hu⟩ := dictGet_isSome_of_hasKey h3
      rcases hres : Store.from_dict data with e | s
      · exfalso
        unfold Store.from_dict at hres
        rw [hb] at hres
        dsimp only at hres
        rw [hu] at hres
        exact Except.noConfusion hres
      · exact ⟨s, rfl⟩
  · intro k v h1 h2 h3 h4 h5
    have hbase : baseFieldNames.contains (pyLower k) = false := by
      by_cases e1 : pyLower k = "name"
      · rw [e1] at h1
        exact absurd h1 (by decide)
      by_cases e2 : pyLower k = "created_at"
      · rw [e2] at h2
        exact absurd h2 (by decide)
      by_cases e3 : pyLower k = "updated_at"
      · rw [e3] at h3
        exact absurd h3 (by decide)
      simp [baseFieldNames, e1, e2, e3, h4, h5]
    have hstep : ∀ mapped2 : List (String × PyVal),
        mapBaseField mapped2 k v =
          Except.ok (dictInsert mapped2 (pyLower k) v) := by
      intro mapped2
      unfold mapBaseField
      dsimp only
      rw [if_neg (by simpa using h1), if_neg (by simpa using h2),
        if_neg (by simpa using h3), if_neg h4, if_neg h5]
    unfold BaseModel.from_dict
    rw [List.foldlM_append]
    cases hfold2 : data.foldlM (fun acc kv => mapBaseField acc kv.1 kv.2) [] with
    | error e => rw [except_error_bind]
    | ok mapped2 =>
      rw [except_ok_bind, List.foldlM_cons, hstep mapped2, except_ok_bind,
        List.foldlM_nil]
      rw [show (pure (dictInsert mapped2 (pyLower k) v) :
          Except String (List (String × PyVal))) =
        Except.ok (dictInsert mapped2 (pyLower k) v) from rfl]
      dsimp only
      rw [filter_dictInsert_not_kept _ _ _ _ hbase]
  · intro nk nv hn
    have hstep : mapBaseField [] nk nv = Except.ok [("name", nv)] := by
      unfold mapBaseField
      dsimp only
      rw [if_pos hn]
      rfl
    unfold BaseModel.from_dict
    rw [List.foldlM_cons, hstep, except_ok_bind]
    rfl
  · intro nk nv v hn hv
    have hstep1 : mapBaseField [] nk nv = Except.ok [("name", nv)] := by
      unfold mapBaseField
      dsimp only
      rw [if_pos hn]
      rfl
    have hstep2 : mapBaseField [("name", nv)] "created_on" v =
        Except.ok [("name", nv), ("created_at", PyVal.none)] := by
      unfold mapBaseField
      dsimp only
      rw [if_neg (by decide), if_pos (by decide), hv]
      rfl
    unfold BaseModel.from_dict
    rw [List.foldlM_cons, hstep1, except_ok_bind, List.foldlM_cons, hstep2,
      except_ok_bind]
    rfl

/-- C7 witness: a row with a `Name` key, an unparseable `created_on` and a
junk integer field materializes without raising, for both record types. -/
theorem from_dict_no_raise_with_name_witness :
    (∃ m, BaseModel.from_dict
      [("Name", PyVal.str "x"), ("created_on", PyVal.str "garbage"),
       ("weird", PyVal.int 7)] = Except.ok m) ∧
    (∃ s, Store.from_dict
      [("Name", PyVal.str "x"), ("created_on", PyVal.str "garbage"),
       ("weird", PyVal.int 7)] = Except.ok s) := by
  have h := from_dict_no_raise_with_name
    [("Name", PyVal.str "x"), ("created_on", PyVal.str "garbage"),
     ("weird", PyVal.int 7)]
    ⟨("Name", PyVal.str "x"), by decide, by decide⟩
    (by
      intro kv hmem hsyn
      fin_cases hmem
      · exact absurd hsyn (by decide)
      · exact ⟨Option.none, by decide⟩
      · exact absurd hsyn (by decide))
  exact ⟨h.1, h.2.1⟩

/-- C8 counterexample: the claim's numeric-epoch fallback with
"first successful parse wins, absence only when nothing parses" fails at
the raw value `0`: the epoch conversion of `0` succeeds (the Unix epoch),
yet `_parse_datetime` returns `None`, because the leading `if not value`
truthiness guard short-circuits every falsy input. -/
theorem parse_datetime_zero_short_circuits :
    _parse_datetime (PyVal.int 0) = Except.ok Option.none ∧
    fromtimestamp 0 = Except.ok ⟨1970, 1, 1, 0, 0, 0, 0, Option.none⟩ :=
  ⟨rfl, by decide⟩

/-- C8 (amended): except for falsy raw values (`None`, `False`, `0`, the
empty string), which short-circuit to absent before any parsing: a string
tries the fixed six-format list in order (space- and `T`-separated, with
and without fractional seconds, with a `%z` offset or a literal `Z`) and
the first format that parses wins; if every format fails the result is
absent — stated for ASCII input, the domain on which the embedded parsers
coincide with CPython's Unicode-aware `\s`/`\d` classes; strings and
falsy values never raise. A nonzero number goes through the epoch
conversion and mirrors its three outcomes: a datetime, a caught
`ValueError`/`OSError` degrading to absent, or an uncaught
`OverflowError` that propagates — so the parser is *not* total on huge
integer epochs. -/
theorem parse_datetime_first_format_wins (s : String) (d : PyDateTime)
    (n : Int) (v : PyVal) :
    (∀ i (h : i < datetimeFormats.length),
      (∀ j (hj : j < i), (datetimeFormats.get ⟨j, Nat.lt_trans hj h⟩) s = Option.none) →
      (datetimeFormats.get ⟨i, h⟩) s = Option.some d →
      _parse_datetime (PyVal.str s) = Except.ok (Option.some d)) ∧
    (s.data.all (fun c => c.toNat < 128) = true →
      (∀ f ∈ datetimeFormats, f s = Option.none) →
      _parse_datetime (PyVal.str s) = Except.ok Option.none) ∧
    (∀ d2 : PyDateTime, n ≠ 0 → fromtimestamp n = Except.ok d2 →
      _parse_datetime (PyVal.int n) = Except.ok (Option.some d2)) ∧
    (n ≠ 0 → fromtimestamp n = Except.error EpochError.valueError →
      _parse_datetime (PyVal.int n) = Except.ok Option.none) ∧
    (n ≠ 0 → fromtimestamp n = Except.error EpochError.overflowError →
      _parse_datetime (PyVal.int n) =
        Except.error "OverflowError: timestamp out of range for platform time_t") ∧
    (pyTruthy v = false → _parse_datetime v = Except.ok Option.none) := by
  refine ⟨fun i h hprev hcur => ?_, fun hascii hall => ?_,
    fun d2 hn hft => ?_, fun hn hft => ?_, fun hn hft => ?_, fun hv => ?_⟩
  · by_cases hemp : s.isEmpty
    · have hs : s = "" := (String.isEmpty_iff s).mp hemp
      subst hs
      rw [formats_empty_input _ (datetimeFormats.get_mem i h)] at hcur
      exact Option.noConfusion hcur
    · have ht : pyTruthy (PyVal.str s) = true := by simp [pyTruthy, hemp]
      simp only [_parse_datetime, ht, Bool.not_true, Bool.false_eq_true, if_false]
      exact congrArg Except.ok
        (findSome?_first_hit datetimeFormats (fun f => f s) i h d hprev hcur)
  · by_cases hemp : s.isEmpty
    · have hs : s = "" := (String.isEmpty_iff s).mp hemp
      subst hs
      rfl
    · have ht : pyTruthy (PyVal.str s) = true := by simp [pyTruthy, hemp]
      simp only [_parse_datetime, ht, Bool.not_true, Bool.false_eq_true, if_false]
      exact congrArg Except.ok
        (findSome?_all_none datetimeFormats (fun f => f s) hall)
  · have ht : pyTruthy (PyVal.int n) = true := by simp [pyTruthy, hn]
    simp only [_parse_datetime, ht, Bool.not_true, Bool.false_eq_true, if_false]
    rw [hft]
  · have ht : pyTruthy (PyVal.int n) = true := by simp [pyTruthy, hn]
    simp only [_parse_datetime, ht, Bool.not_true, Bool.false_eq_true, if_false]
    rw [hft]
  · have ht : pyTruthy (PyVal.int n) = true := by simp [pyTruthy, hn]
    simp only [_parse_datetime, ht, Bool.not_true, Bool.false_eq_true, if_false]
    rw [hft]
  · simp [_parse_datetime, hv]

/-- C8 witness: a `T`/`Z` string reaches the sixth format after the first
five fail; an all-ASCII non-date string makes every format fail and
yields absence; `86400` goes through the epoch conversion; `2 ** 63`
makes the uncaught `OverflowError` propagate; `None` is falsy. -/
theorem parse_datetime_first_format_wins_witness :
    _parse_datetime (PyVal.str "2023-01-02T03:04:05Z") =
      Except.ok (Option.some ⟨2023, 1, 2, 3, 4, 5, 0, Option.none⟩) ∧
    _parse_datetime (PyVal.str "not a date") = Except.ok Option.none ∧
    _parse_datetime (PyVal.int 86400) =
      Except.ok (Option.some ⟨1970, 1, 2, 0, 0, 0, 0, Option.none⟩) ∧
    _parse_datetime (PyVal.int (2 ^ 63)) =
      Except.error "OverflowError: timestamp out of range for platform time_t" ∧
    _parse_datetime PyVal.none = Except.ok Option.none := by
  refine ⟨(parse_datetime_first_format_wins "2023-01-02T03:04:05Z"
      ⟨2023, 1, 2, 3, 4, 5, 0, Option.none⟩ 1 PyVal.none).1 5 (by decide)
      (by decide) (by decide),
    (parse_datetime_first_format_wins "not a date"
      ⟨1, 1, 1, 0, 0, 0, 0, Option.none⟩ 1 PyVal.none).2.1 (by decide)
      (by decide),
    (parse_datetime_first_format_wins "" ⟨1, 1, 1, 0, 0, 0, 0, Option.none⟩
      86400 PyVal.none).2.2.1 ⟨1970, 1, 2, 0, 0, 0, 0, Option.none⟩
      (by decide) (by decide),
    (parse_datetime_first_format_wins "" ⟨1, 1, 1, 0, 0, 0, 0, Option.none⟩
      (2 ^ 63) PyVal.none).2.2.2.2.1 (by decide) (by decide),
    (parse_datetime_first_format_wins "" ⟨1, 1, 1, 0, 0, 0, 0, Option.none⟩
      1 PyVal.none).2.2.2.2.2 (by decide)⟩

/-- C9: a describe/get whose query returns zero rows yields exactly a
`ResourceNotFound` error whose message embeds the requested name — never a
record and never another error kind; the issued statement is
`DESCRIBE STORE <escaped name>` (`_get_describe_sql`, from src). -/
theorem describe_zero_rows_not_found (name : String) :
    StoreManager._get_describe_sql name =
      "DESCRIBE STORE " ++ escape_identifier name ∧
    StoreManager.get name [] =
      Except.error
        (SDKError.resourceNotFound ("Store '" ++ name ++ "' not found")) ∧
    (∀ s : StoreRec, StoreManager.get name [] ≠ Except.ok s) := by
  refine ⟨rfl, rfl, fun s h => ?_⟩
  exact Except.noConfusion h

end DeltaStreamSDK
